import Mathlib

/-!
Verification of the CSVtoPPT pipeline core against its specification.

Shallow embedding of the Python sources:
* `backend/modules/module_j_plan_limits.py` (plan tiers, usage quota)
* `backend/modules/module_b_analysis.py`   (type inference, relations)
* `backend/services/pipeline.py`           (orchestrator: artifact filter, slide cap)
* `backend/modules/module_c_plotting.py`   (chart generation)
* `backend/modules/module_h_texts_ai.py`   (AI text composition with fallback)
* `backend/modules/module_d_texts.py`      (rule-based fallback texts)

External collaborators (pandas coercions, the matplotlib renderer, the file
system, the OpenAI client, wall-clock time) are modelled as explicit oracle
parameters or as per-cell attribute data; Python's mutation of the user record
is modelled by explicit state passing.
-/

namespace CsvToPpt

/- ========================================================================
   Module J — backend/modules/module_j_plan_limits.py
   ======================================================================== -/

namespace ModuleJ

/-- Constants from module_j_plan_limits.py. -/
def FREE_MONTHLY_LIMIT : Int := 10
def FREE_MAX_SLIDES : Int := 8
def FREE_MAX_ROWS : Int := 5000
def FREE_AI_STYLE : String := "light"
def FREE_TEMPLATE : String := "default"
def PRO_TEMPLATE : String := "pro_template"

/-- `PlanParameters` dataclass. -/
structure PlanParameters where
  max_slides : Option Int
  ai_style : String
  watermark : Bool
  template : String
deriving Repr, DecidableEq

/-- A wall-clock instant, as far as module J inspects it: `datetime.now(timezone.utc)`
is only compared through `.year` and `.month`; the full value is stamped back
into the user record, which we model by keeping the abstract instant whole. -/
structure DT where
  year : Int
  month : Int
deriving Repr, DecidableEq

/-- The user record as accessed through `getattr`/`setattr`.  Attributes that
may be absent or `None` are `Option`s.  `last_reset_date` holds either a
datetime or nothing: the source coerces non-`datetime` values and naive
timezones to the same outcome as a normal datetime comparison, so the
`isinstance`/`tzinfo` normalisation collapses in the embedding. -/
structure User where
  plan : Option String
  conversions_this_month : Option Int
  conversions_last_month : Option Int
  last_reset_date : Option DT
deriving Repr, DecidableEq

/-- The tabular object passed for row counting; `_extract_row_count` reads
`shape[0]` (or `len`), which we model as the row count, with `None` → 0. -/
structure DataFrame where
  nrows : Int
deriving Repr, DecidableEq

/-- `_extract_row_count(dataframe)`. -/
def extractRowCount (df : Option DataFrame) : Int :=
  match df with
  | none => 0
  | some d => d.nrows

/-- `int(getattr(user, "conversions_this_month", 0) or 0)`: absent/`None`/0 all
read as 0. -/
def convVal (u : User) : Int :=
  match u.conversions_this_month with
  | none => 0
  | some n => n

/-- Python `str.strip()`: drop leading and trailing whitespace. -/
def pyStrip (s : String) : String :=
  String.mk (((s.data.dropWhile Char.isWhitespace).reverse.dropWhile Char.isWhitespace).reverse)

/-- Python `str.lower()` on the ASCII plan names used here. -/
def pyLower (s : String) : String :=
  String.mk (s.data.map Char.toLower)

/-- `get_user_plan(user)`: `(getattr(user, "plan", None) or "free").strip().lower()`. -/
def getUserPlan (u : User) : String :=
  let plan := match u.plan with
    | none => "free"
    | some s => if s = "" then "free" else s
  pyLower (pyStrip plan)

/-- `apply_plan_parameters(user)`. -/
def applyPlanParameters (u : User) : PlanParameters :=
  let plan := getUserPlan u
  if plan = "pro" then
    { max_slides := none, ai_style := "executive", watermark := false, template := PRO_TEMPLATE }
  else
    { max_slides := some FREE_MAX_SLIDES, ai_style := FREE_AI_STYLE, watermark := true,
      template := FREE_TEMPLATE }

/-- The `{"allowed": ..., "error": ..., "params": ...}` payload. -/
structure UsagePayload where
  allowed : Bool
  error : Option String
  params : Option PlanParameters
deriving Repr, DecidableEq

/-- `_reset_monthly_quota_if_needed(user)`: reset the counter when the stored
reset instant is absent or lies in a different month or year than `now`. -/
def resetMonthlyQuotaIfNeeded (now : DT) (u : User) : User :=
  let previousValue := convVal u
  match u.last_reset_date with
  | none =>
      { u with conversions_last_month := some previousValue,
               conversions_this_month := some 0,
               last_reset_date := some now }
  | some lastReset =>
      if lastReset.year ≠ now.year ∨ lastReset.month ≠ now.month then
        { u with conversions_last_month := some previousValue,
                 conversions_this_month := some 0,
                 last_reset_date := some now }
      else u

/-- `_allow_and_increment(user, params)`. -/
def allowAndIncrement (now : DT) (u : User) (params : PlanParameters) :
    UsagePayload × User :=
  let current := convVal u
  let u := { u with conversions_this_month := some (current + 1) }
  let u := match u.last_reset_date with
    | none => { u with last_reset_date := some now }
    | some _ => u
  ({ allowed := true, error := none, params := some params }, u)

/-- The free-tier rule chain of `check_usage_limits` after the quota reset has
been applied (source lines 74-101). -/
def checkLimitsAfterReset (now : DT) (u : User) (df : Option DataFrame)
    (requestedSlideCount : Option Int) : UsagePayload × User :=
  let plan := getUserPlan u
  let params := applyPlanParameters u
  if plan = "pro" then allowAndIncrement now u params
  else
    let conversionsThisMonth := convVal u
    if conversionsThisMonth ≥ FREE_MONTHLY_LIMIT then
      ({ allowed := false,
         error := some "Vous avez atteint la limite de 10 conversions mensuelles du plan Free.",
         params := none }, u)
    else
      let rowCount := extractRowCount df
      if rowCount > FREE_MAX_ROWS then
        ({ allowed := false,
           error := some "Votre fichier dépasse la limite du plan Free.",
           params := none }, u)
      else
        -- `if requested_slide_count and requested_slide_count > FREE_MAX_SLIDES`
        match requestedSlideCount with
        | some k =>
            if k ≠ 0 ∧ k > FREE_MAX_SLIDES then
              ({ allowed := false,
                 error := some "Le plan Free est limité à 8 slides par présentation.",
                 params := none }, u)
            else allowAndIncrement now u params
        | none => allowAndIncrement now u params

/-- `check_usage_limits(user, dataframe, requested_slide_count)`; the mutation
of the user record becomes explicit state passing. -/
def checkUsageLimits (now : DT) (u : User) (df : Option DataFrame)
    (requestedSlideCount : Option Int) : UsagePayload × User :=
  checkLimitsAfterReset now (resetMonthlyQuotaIfNeeded now u) df requestedSlideCount

end ModuleJ

/- ========================================================================
   Module B — backend/modules/module_b_analysis.py
   ======================================================================== -/

namespace ModuleB

/-- Thresholds from module_b_analysis.py.  Ratios computed by the source in
floating point are embedded as their exact rational values (`mkRat`). -/
def IDENTIFIER_UNIQUE_RATIO : ℚ := mkRat 95 100
def NUMERIC_DISCRETE_MAX_UNIQUE : Nat := 20
def TEXT_CATEGORY_MAX_UNIQUE : Nat := 30
def TEXT_CATEGORY_MAX_RATIO : ℚ := mkRat 3 10
def CORRELATION_MIN_ABS : ℚ := mkRat 1 2

/-- The pandas storage dtype of a series, as far as the `pd.api.types`
predicates used by module B distinguish it.  Object and string dtypes are
interchangeable for every check performed, so they are one constructor. -/
inductive Dtype
  | numericD | boolD | datetimeD | objectD | categoricalD
deriving Repr, DecidableEq

/-- One scalar cell of a column.  The pandas coercions applied to a scalar
are carried as per-cell attributes (the coercion functions themselves are
external library behaviour):
* `na` — the cell is a missing marker (`NaN`);
* `key` — value identity: two cells hold equal scalars iff keys are equal
  (`nunique`, `unique` and `value_counts` work on this);
* `boolForm` — `str(value).strip().lower()` lies in the canonical boolean
  vocabulary `{0,1,true,false,oui,non,yes,no}`;
* `numCoerce` — `pd.to_numeric` succeeds on the scalar;
* `dateCoerce` — `pd.to_datetime` succeeds on the scalar.
`pd.to_numeric`/`pd.to_datetime` map a missing cell to `NaN`/`NaT`, so the
counting helpers below only count non-missing cells. -/
structure Cell where
  na : Bool
  key : Nat
  boolForm : Bool
  numCoerce : Bool
  dateCoerce : Bool
deriving Repr, DecidableEq

/-- A pandas Series: a dtype plus the cells. -/
structure Series where
  dtype : Dtype
  cells : List Cell
deriving Repr, DecidableEq

/-- `pd.api.types.is_bool_dtype`. -/
def isBoolDtype (d : Dtype) : Bool := d = Dtype.boolD

/-- `pd.api.types.is_numeric_dtype` (bool dtype counts as numeric in pandas). -/
def isNumericDtype (d : Dtype) : Bool := d = Dtype.numericD || d = Dtype.boolD

/-- `pd.api.types.is_datetime64_any_dtype`. -/
def isDatetimeDtype (d : Dtype) : Bool := d = Dtype.datetimeD

/-- `is_object_dtype(series) or is_string_dtype(series)`. -/
def isObjectOrStringDtype (d : Dtype) : Bool := d = Dtype.objectD

/-- `pd.api.types.is_categorical_dtype`. -/
def isCategoricalDtype (d : Dtype) : Bool := d = Dtype.categoricalD

/-- `series.dropna()`. -/
def nonNa (s : Series) : List Cell := s.cells.filter (fun c => !c.na)

/-- Helper for `dedupKeys`: keep cells whose key was not seen before. -/
def dedupKeysAux : List Cell → List Nat → List Cell
  | [], _ => []
  | c :: cs, seen =>
      if c.key ∈ seen then dedupKeysAux cs seen
      else c :: dedupKeysAux cs (c.key :: seen)

/-- Representatives of the distinct scalars of a cell list (`unique()`):
first occurrence of each value key. -/
def dedupKeys (l : List Cell) : List Cell := dedupKeysAux l []

/-- `nunique(dropna=True)` of a series. -/
def nunique (s : Series) : Nat := (dedupKeys (nonNa s)).length

/-- `_is_boolean_series(series)`: bool dtype, or the distinct lowercased
string forms of the non-missing values are a subset of the canonical
vocabulary (empty series → False). -/
def isBooleanSeries (s : Series) : Bool :=
  if isBoolDtype s.dtype then true
  else
    let nn := nonNa s
    if nn.isEmpty then false
    else (dedupKeys nn).all (fun c => c.boolForm)

/-- `_is_datetime_series(series)` — in `infer_column_type` it is applied to
the already-`dropna`'d series, whose dtype is unchanged: datetime dtype, or
`pd.to_datetime(..., errors="coerce")` succeeds for ≥ 80% of the entries. -/
def isDatetimeSeriesOn (dtype : Dtype) (cells : List Cell) : Bool :=
  if isDatetimeDtype dtype then true
  else
    let okCount := cells.countP (fun c => !c.na && c.dateCoerce)
    mkRat okCount (max cells.length 1) ≥ mkRat 8 10

/-- `_looks_identifier(series, unique_ratio)`. -/
def looksIdentifier (s : Series) (uniqueRatio : ℚ) : Bool :=
  if uniqueRatio < IDENTIFIER_UNIQUE_RATIO then false
  else isObjectOrStringDtype s.dtype

/-- `_is_numeric_series(series)`: numeric dtype, or `pd.to_numeric` succeeds
for ≥ 90% of the entries — note the denominator is the FULL series length,
missing cells included (`coerced.notna().sum() / max(len(series), 1)`). -/
def isNumericSeries (s : Series) : Bool :=
  if isNumericDtype s.dtype then true
  else
    let okCount := s.cells.countP (fun c => !c.na && c.numCoerce)
    mkRat okCount (max s.cells.length 1) ≥ mkRat 9 10

/-- `_is_categorical_text(series, unique_count, unique_ratio)`. -/
def isCategoricalText (s : Series) (uniqueCount : Nat) (uniqueRatio : ℚ) : Bool :=
  if isCategoricalDtype s.dtype then true
  else if !isObjectOrStringDtype s.dtype then false
  else decide (uniqueCount ≤ TEXT_CATEGORY_MAX_UNIQUE) || decide (uniqueRatio ≤ TEXT_CATEGORY_MAX_RATIO)

/-- `infer_column_type(series)` (the `series is None` guard has no
counterpart: a `Series` value always exists here). -/
def inferColumnType (s : Series) : String :=
  let nn := nonNa s
  if nn.length = 0 then "constant"
  else
    let uniqueCount := (dedupKeys nn).length
    if uniqueCount ≤ 1 then "constant"
    else
      let uniqueRatio : ℚ := mkRat uniqueCount (max nn.length 1)
      if isBooleanSeries s then "boolean"
      else if isDatetimeSeriesOn s.dtype nn then "date"
      else if looksIdentifier s uniqueRatio then "identifier"
      else if isNumericSeries s then
        if uniqueCount ≤ NUMERIC_DISCRETE_MAX_UNIQUE then "numeric_discrete"
        else "numeric_continuous"
      else if isCategoricalText s uniqueCount uniqueRatio then "categorical"
      else "text"

/-- The Python call boundary as explicit state passing: `infer_column_type`
reads the series and returns the label together with the (unchanged) series —
the source never assigns into its input. -/
def classifyRun (s : Series) : String × Series :=
  (inferColumnType s, s)

/-- The claim's own reading of "numeric-coercible": already numeric, or at
least 90% of the NON-MISSING values coerce to numbers.  Stated from the
spec's words to compare with the source's `_is_numeric_series`. -/
def claimNumericCoercible (s : Series) : Bool :=
  if isNumericDtype s.dtype then true
  else
    let nn := nonNa s
    let okCount := nn.countP (fun c => c.numCoerce)
    mkRat okCount (max nn.length 1) ≥ mkRat 9 10

/- ------------------------- detect_relations ------------------------- -/

/-- A dataframe for module B: named columns of cells (`df[col]`). -/
def DFrame := List (String × List Cell)

/-- `dataframe[col]` (missing column → empty, never hit by the callers). -/
def colCells (df : DFrame) (name : String) : List Cell :=
  match List.find? (fun p => p.1 = name) df with
  | some p => p.2
  | none => []

/-- Whether `pd.to_numeric(..., errors="coerce")` leaves a non-NaN entry for
this cell (missing cells coerce to NaN). -/
def effNum (c : Cell) : Bool := !c.na && c.numCoerce

/-- Number of pairwise-complete observations of two coerced numeric columns —
what `corr(min_periods=3)` counts. -/
def pairCount (df : DFrame) (a b : String) : Nat :=
  ((colCells df a).zip (colCells df b)).countP (fun p => effNum p.1 && effNum p.2)

/-- `str.startswith` on the column-type labels. -/
def strStartsWith (s pre : String) : Bool := pre.data.isPrefixOf s.data

/-- `itertools.combinations(l, 2)` in order. -/
def combinations2 {α : Type} : List α → List (α × α)
  | [] => []
  | x :: xs => (xs.map (fun y => (x, y))) ++ combinations2 xs

/-- Python 3 `round` to an integer: round-half-to-even on the exact value. -/
def roundHalfEven (q : ℚ) : ℤ :=
  let f := ⌊q⌋
  let r := q - (f : ℚ)
  if r < mkRat 1 2 then f
  else if mkRat 1 2 < r then f + 1
  else if f % 2 = 0 then f else f + 1

/-- `round(value, 3)`. -/
def round3 (q : ℚ) : ℚ := mkRat 1 1000 * (roundHalfEven (q * 1000) : ℚ)

/-- One `{"columns": [a, b], "value": v}` correlation record. -/
structure CorrEntry where
  columns : List String
  value : ℚ
deriving Repr, DecidableEq

/-- One `{"columns": [a, b], "suggestion": "heatmap"}` record. -/
structure CatPairEntry where
  columns : List String
  suggestion : String
deriving Repr, DecidableEq

/-- The `{"correlations": ..., "categorical_pairs": ...}` result. -/
structure Relations where
  correlations : List CorrEntry
  categorical_pairs : List CatPairEntry
deriving Repr, DecidableEq

/-- `_is_pair_small(dataframe, col_a, col_b)`. -/
def isPairSmall (df : DFrame) (a b : String) : Bool :=
  (dedupKeys ((colCells df a).filter (fun c => !c.na))).length ≤ TEXT_CATEGORY_MAX_UNIQUE &&
  (dedupKeys ((colCells df b).filter (fun c => !c.na))).length ≤ TEXT_CATEGORY_MAX_UNIQUE

/-- The numeric columns scanned by `detect_relations`
(`typ.startswith("numeric")`, dict order). -/
def numericColsOf (types : List (String × String)) : List String :=
  (types.filter (fun p => strStartsWith p.2 "numeric")).map Prod.fst

/-- The columns typed `{categorical, boolean, numeric_discrete}`. -/
def categoricalColsOf (types : List (String × String)) : List String :=
  (types.filter (fun p =>
    p.2 = "categorical" || p.2 = "boolean" || p.2 = "numeric_discrete")).map Prod.fst

/-- The body of the correlation loop of `detect_relations` for one unordered
pair: look up `corr_matrix.loc[a, b]`, keep it iff it is non-NaN with
`abs ≥ CORRELATION_MIN_ABS`, recording the value rounded to 3 decimals. -/
def corrStep (corrM : String → String → Option ℚ) (pr : String × String) :
    Option CorrEntry :=
  match corrM pr.1 pr.2 with
  | some c =>
      if CORRELATION_MIN_ABS ≤ |c| then some ⟨[pr.1, pr.2], round3 c⟩ else none
  | none => none

/-- `detect_relations(dataframe, column_types)`.  The Pearson coefficients of
`numeric_df.corr(method="pearson", min_periods=3)` are produced by the
external numeric library; they enter as the oracle `corrM` (`none` = NaN),
constrained by the `min_periods` contract in the theorems below. -/
def detectRelations (corrM : String → String → Option ℚ) (df : DFrame)
    (types : List (String × String)) : Relations :=
  let correlations :=
    if 2 ≤ (numericColsOf types).length then
      (combinations2 (numericColsOf types)).filterMap (corrStep corrM)
    else []
  let categoricalPairs :=
    if 2 ≤ (categoricalColsOf types).length then
      ((combinations2 (categoricalColsOf types)).filter
        (fun pr => isPairSmall df pr.1 pr.2)).map
          (fun pr => CatPairEntry.mk [pr.1, pr.2] "heatmap")
    else []
  ⟨correlations, categoricalPairs⟩

/-- Two two-element column lists denote the same unordered pair. -/
def unordEq (l₁ l₂ : List String) : Prop := l₁ = l₂ ∨ l₁ = l₂.reverse

instance (l₁ l₂ : List String) : Decidable (unordEq l₁ l₂) := by
  unfold unordEq
  infer_instance

end ModuleB

end CsvToPpt

namespace CsvToPpt.ModuleB

/-- C8: any column with at most one distinct non-missing value (empty and
all-missing columns included) is classified `constant`, whatever its dtype. -/
theorem classify_constant_for_low_distinct
    (s : Series) (h : nunique s ≤ 1) : inferColumnType s = "constant" := by
  unfold inferColumnType
  unfold nunique at h
  by_cases h0 : (nonNa s).length = 0
  · rw [if_pos h0]
  · rw [if_neg h0]
    dsimp only
    rw [if_pos h]

/-- Witness for C8: an all-equal boolean-dtype column is `constant`. -/
theorem classify_constant_for_low_distinct_witness :
    nunique ⟨Dtype.boolD, [⟨false, 0, true, true, false⟩, ⟨false, 0, true, true, false⟩]⟩ ≤ 1 ∧
    inferColumnType ⟨Dtype.boolD, [⟨false, 0, true, true, false⟩, ⟨false, 0, true, true, false⟩]⟩
      = "constant" := by
  refine ⟨by decide, classify_constant_for_low_distinct _ (by decide)⟩

/-- A column of five numeric-looking strings (two of them repeated) and five
missing cells, stored as object dtype: every non-missing value coerces to a
number, yet the full-length 90% test of `_is_numeric_series` fails
(5/10 < 0.9) and the column is classified `categorical`. -/
def exC5cat : Series :=
  ⟨Dtype.objectD,
    [⟨false, 1, true, true, false⟩,   -- "1"  (in the boolean vocabulary)
     ⟨false, 2, false, true, false⟩,  -- "2"
     ⟨false, 3, false, true, false⟩,  -- "3"
     ⟨false, 1, true, true, false⟩,   -- "1"
     ⟨false, 2, false, true, false⟩,  -- "2"
     ⟨true, 9, false, false, false⟩, ⟨true, 9, false, false, false⟩,
     ⟨true, 9, false, false, false⟩, ⟨true, 9, false, false, false⟩,
     ⟨true, 9, false, false, false⟩]⟩

/-- A numeric-dtype column holding the same value twice: numeric-coercible
with one distinct value, but the constant rule fires first. -/
def exC5const : Series :=
  ⟨Dtype.numericD, [⟨false, 0, false, true, false⟩, ⟨false, 0, false, true, false⟩]⟩

/-- C5 counterexample: the claim — every numeric-coercible column (already
numeric, or ≥ 90% of its NON-missing values coerce) with k distinct values is
classified `numeric_discrete` iff k ≤ 20 — fails twice on the code: the
source divides by the full length, missing cells included, so `exC5cat`
(claim-coercible, k = 3) comes out `categorical`; and the earlier rules
pre-empt rule 5, so the numeric constant column `exC5const` (k = 1) comes out
`constant`. -/
theorem numeric_discrete_rule_counterexample :
    (¬ (∀ s : Series, claimNumericCoercible s = true →
        inferColumnType s =
          (if nunique s ≤ 20 then "numeric_discrete" else "numeric_continuous"))) ∧
    (claimNumericCoercible exC5cat = true ∧ nunique exC5cat = 3 ∧
      inferColumnType exC5cat = "categorical") ∧
    (claimNumericCoercible exC5const = true ∧ nunique exC5const = 1 ∧
      inferColumnType exC5const = "constant") := by
  refine ⟨?_, ⟨by decide, by decide, by decide⟩, ⟨by decide, by decide, by decide⟩⟩
  intro h
  have h1 := h exC5cat (by decide)
  rw [if_pos (by decide : nunique exC5cat ≤ 20)] at h1
  exact absurd h1 (by decide)

/-- C5 amended: for a column that actually reaches the numeric rule (at least
one non-missing value, at least 2 distinct values, and not classified
`boolean`, `date` or `identifier` by the earlier rules) and that passes the
source's numeric test (`_is_numeric_series`, whose 90% threshold is taken
over the FULL length, missing cells included), the classifier returns
`numeric_discrete` iff the distinct count is ≤ 20, else `numeric_continuous`. -/
theorem numeric_discrete_rule_amended (s : Series)
    (h0 : (nonNa s).length ≠ 0)
    (h2 : 2 ≤ nunique s)
    (hb : isBooleanSeries s = false)
    (hd : isDatetimeSeriesOn s.dtype (nonNa s) = false)
    (hi : looksIdentifier s (mkRat (nunique s) (max (nonNa s).length 1)) = false)
    (hn : isNumericSeries s = true) :
    inferColumnType s =
      (if nunique s ≤ 20 then "numeric_discrete" else "numeric_continuous") := by
  unfold inferColumnType
  rw [if_neg h0]
  have hu : ¬ ((dedupKeys (nonNa s)).length ≤ 1) := by
    unfold nunique at h2
    omega
  simp only [if_neg hu]
  have hnu : (dedupKeys (nonNa s)).length = nunique s := rfl
  rw [hnu, hb, hd, hi, hn]
  simp [NUMERIC_DISCRETE_MAX_UNIQUE]

/-- Witness for the amended C5: an object column of numeric strings,
90%-coercible over the full length, with 3 distinct values. -/
theorem numeric_discrete_rule_amended_witness :
    (nonNa ⟨Dtype.objectD,
      [⟨false, 0, false, true, false⟩, ⟨false, 1, false, true, false⟩,
       ⟨false, 0, false, true, false⟩, ⟨false, 1, false, true, false⟩,
       ⟨false, 2, false, true, false⟩]⟩).length ≠ 0 ∧
    inferColumnType ⟨Dtype.objectD,
      [⟨false, 0, false, true, false⟩, ⟨false, 1, false, true, false⟩,
       ⟨false, 0, false, true, false⟩, ⟨false, 1, false, true, false⟩,
       ⟨false, 2, false, true, false⟩]⟩ = "numeric_discrete" := by
  refine ⟨by decide, ?_⟩
  have h := numeric_discrete_rule_amended ⟨Dtype.objectD,
      [⟨false, 0, false, true, false⟩, ⟨false, 1, false, true, false⟩,
       ⟨false, 0, false, true, false⟩, ⟨false, 1, false, true, false⟩,
       ⟨false, 2, false, true, false⟩]⟩
    (by decide) (by decide) (by decide) (by decide) (by decide) (by decide)
  rw [h, if_pos (by decide)]

/-- C9: classification is pure and idempotent — running the classifier twice
(threading the explicit series state) returns the same label both times, and
the series is unchanged by each call. -/
theorem classify_pure_and_idempotent (s : Series) :
    (classifyRun (classifyRun s).2).1 = (classifyRun s).1 ∧
    (classifyRun s).2 = s ∧
    (classifyRun (classifyRun s).2).2 = s := by
  exact ⟨rfl, rfl, rfl⟩

/- ---------------------- lemmas for detect_relations ---------------------- -/

/-- Both components of a pair emitted by `combinations2` belong to the list. -/
lemma mem_combinations2 {α : Type} {l : List α} {p : α × α}
    (h : p ∈ combinations2 l) : p.1 ∈ l ∧ p.2 ∈ l := by
  induction l with
  | nil => simp [combinations2] at h
  | cons x xs ih =>
    rw [combinations2, List.mem_append] at h
    rcases h with h | h
    · obtain ⟨y, hy, rfl⟩ := List.mem_map.mp h
      exact ⟨List.mem_cons_self _ _, List.mem_cons_of_mem _ hy⟩
    · rcases ih h with ⟨h1, h2⟩
      exact ⟨List.mem_cons_of_mem _ h1, List.mem_cons_of_mem _ h2⟩

/-- On a duplicate-free list, `combinations2` never emits the same unordered
pair twice. -/
lemma combinations2_pairwise {α : Type} {l : List α} (h : l.Nodup) :
    (combinations2 l).Pairwise
      (fun p q => ¬ ((p.1 = q.1 ∧ p.2 = q.2) ∨ (p.1 = q.2 ∧ p.2 = q.1))) := by
  induction l with
  | nil => simp [combinations2]
  | cons x xs ih =>
    rcases List.nodup_cons.mp h with ⟨hx, hxs⟩
    rw [combinations2, List.pairwise_append]
    refine ⟨?_, ih hxs, ?_⟩
    · rw [List.pairwise_map]
      refine List.Pairwise.imp_of_mem ?_ hxs
      intro a b ha hb hne
      rintro (⟨-, hab⟩ | ⟨hxb, -⟩)
      · exact hne hab
      · exact hx ((show x = b from hxb) ▸ hb)
    · intro p hp q hq
      obtain ⟨y, hy, rfl⟩ := List.mem_map.mp hp
      have hq12 := mem_combinations2 hq
      rintro (⟨h1, -⟩ | ⟨h1, -⟩)
      · exact hx ((show x = q.1 from h1) ▸ hq12.1)
      · exact hx ((show x = q.2 from h1) ▸ hq12.2)

/-- `filterMap` transports a pairwise relation along the partial function. -/
lemma pairwise_filterMap_of {α β : Type} {R : α → α → Prop} {S : β → β → Prop}
    (f : α → Option β)
    (hf : ∀ a b, R a b → ∀ x, f a = some x → ∀ y, f b = some y → S x y) :
    ∀ {l : List α}, l.Pairwise R → (l.filterMap f).Pairwise S := by
  intro l
  induction l with
  | nil => intro _; simp
  | cons a l ih =>
    intro hl
    rcases List.pairwise_cons.mp hl with ⟨ha, htl⟩
    rw [List.filterMap_cons]
    cases hfa : f a with
    | none => exact ih htl
    | some b =>
      refine List.pairwise_cons.mpr ⟨?_, ih htl⟩
      intro y hy
      obtain ⟨a', ha', hfa'⟩ := List.mem_filterMap.mp hy
      exact hf a a' (ha a' ha') b hfa y hfa'

/-- An integer lower bound below a rational also bounds its half-even
rounding. -/
lemma roundHalfEven_ge (n : ℤ) (x : ℚ) (h : (n : ℚ) ≤ x) :
    n ≤ roundHalfEven x := by
  have hf : n ≤ ⌊x⌋ := Int.le_floor.mpr h
  simp only [roundHalfEven]
  split_ifs <;> omega

/-- An integer upper bound above a rational also bounds its half-even
rounding. -/
lemma roundHalfEven_le (n : ℤ) (x : ℚ) (h : x ≤ (n : ℚ)) :
    roundHalfEven x ≤ n := by
  have hfl : (⌊x⌋ : ℚ) ≤ x := Int.floor_le x
  have hf : ⌊x⌋ ≤ n := by exact_mod_cast hfl.trans h
  simp only [roundHalfEven]
  have hhalf : mkRat 1 2 = (1 : ℚ) / 2 := by norm_num [Rat.mkRat_eq_div]
  split_ifs with h1 h2 h3
  · exact hf
  · rw [hhalf] at h2
    have : (⌊x⌋ : ℚ) + 1 / 2 < x := by linarith
    have hlt : (⌊x⌋ : ℚ) < (n : ℚ) := by linarith
    have : ⌊x⌋ < n := by exact_mod_cast hlt
    omega
  · exact hf
  · rw [hhalf] at h1
    push_neg at h1
    have : (⌊x⌋ : ℚ) + 1 / 2 ≤ x := by linarith
    have hlt : (⌊x⌋ : ℚ) < (n : ℚ) := by linarith
    have : ⌊x⌋ < n := by exact_mod_cast hlt
    omega

/-- Rounding to three decimals cannot pull an absolute value that is ≥ 1/2
below 1/2. -/
lemma round3_abs_ge_half {c : ℚ} (h : mkRat 1 2 ≤ |c|) :
    mkRat 1 2 ≤ |round3 c| := by
  have hhalf : mkRat 1 2 = (1 : ℚ) / 2 := by norm_num [Rat.mkRat_eq_div]
  have hthird : mkRat 1 1000 = (1 : ℚ) / 1000 := by norm_num [Rat.mkRat_eq_div]
  rw [hhalf] at h ⊢
  unfold round3
  rw [hthird]
  rcases abs_cases c with ⟨habs, hsign⟩ | ⟨habs, hsign⟩
  · rw [habs] at h
    have h500 : ((500 : ℤ) : ℚ) ≤ c * 1000 := by push_cast; linarith
    have hr := roundHalfEven_ge 500 (c * 1000) h500
    have hr' : ((500 : ℤ) : ℚ) ≤ (roundHalfEven (c * 1000) : ℚ) := by exact_mod_cast hr
    have : (1 : ℚ) / 2 ≤ 1 / 1000 * (roundHalfEven (c * 1000) : ℚ) := by
      push_cast at hr' ⊢
      linarith
    exact this.trans (le_abs_self _)
  · rw [habs] at h
    have h500 : c * 1000 ≤ ((-500 : ℤ) : ℚ) := by push_cast; linarith
    have hr := roundHalfEven_le (-500) (c * 1000) h500
    have hr' : (roundHalfEven (c * 1000) : ℚ) ≤ ((-500 : ℤ) : ℚ) := by exact_mod_cast hr
    have : (1 : ℚ) / 2 ≤ -(1 / 1000 * (roundHalfEven (c * 1000) : ℚ)) := by
      push_cast at hr' ⊢
      linarith
    exact this.trans (neg_le_abs _)

/-- Unordered equality of two 2-element column lists coincides with the
component-wise disjunction. -/
lemma unordEq_pair_iff (a b c d : String) :
    unordEq [a, b] [c, d] ↔ ((a = c ∧ b = d) ∨ (a = d ∧ b = c)) := by
  unfold unordEq
  constructor
  · rintro (h | h) <;> simp_all
  · rintro (⟨rfl, rfl⟩ | ⟨rfl, rfl⟩) <;> simp

/-- C6: under the pandas `min_periods=3` contract for the correlation matrix
(fewer than 3 pairwise-complete observations → NaN) and with duplicate-free
column names (a Python dict), every correlation entry of `detect_relations`
has |value| ≥ 0.5, is the 3-decimal rounding of a matrix coefficient with
|coefficient| ≥ 0.5 computed from ≥ 3 paired observations, and no unordered
column pair occurs twice in the correlations list nor in the
categorical-pairs list. -/
theorem relation_detector_correlation_contract
    (corrM : String → String → Option ℚ) (df : DFrame)
    (types : List (String × String))
    (hkeys : (types.map Prod.fst).Nodup)
    (hmin : ∀ pr ∈ combinations2 (numericColsOf types),
      pairCount df pr.1 pr.2 < 3 → corrM pr.1 pr.2 = none) :
    (∀ e ∈ (detectRelations corrM df types).correlations,
        mkRat 1 2 ≤ |e.value| ∧
        ∃ a b c, e.columns = [a, b] ∧ corrM a b = some c ∧
          mkRat 1 2 ≤ |c| ∧ e.value = round3 c ∧ 3 ≤ pairCount df a b) ∧
    (detectRelations corrM df types).correlations.Pairwise
      (fun e₁ e₂ => ¬ unordEq e₁.columns e₂.columns) ∧
    (detectRelations corrM df types).categorical_pairs.Pairwise
      (fun e₁ e₂ => ¬ unordEq e₁.columns e₂.columns) := by
  have hnum : (numericColsOf types).Nodup := by
    unfold numericColsOf
    exact hkeys.sublist ((List.filter_sublist types).map Prod.fst)
  have hcat : (categoricalColsOf types).Nodup := by
    unfold categoricalColsOf
    exact hkeys.sublist ((List.filter_sublist types).map Prod.fst)
  have hcorrEq : (detectRelations corrM df types).correlations =
      (if 2 ≤ (numericColsOf types).length then
        (combinations2 (numericColsOf types)).filterMap (corrStep corrM)
      else []) := rfl
  have hcatEq : (detectRelations corrM df types).categorical_pairs =
      (if 2 ≤ (categoricalColsOf types).length then
        ((combinations2 (categoricalColsOf types)).filter
          (fun pr => isPairSmall df pr.1 pr.2)).map
            (fun pr => CatPairEntry.mk [pr.1, pr.2] "heatmap")
      else []) := rfl
  have hstep : ∀ pr e, corrStep corrM pr = some e →
      e.columns = [pr.1, pr.2] ∧ ∃ c, corrM pr.1 pr.2 = some c ∧
        mkRat 1 2 ≤ |c| ∧ e.value = round3 c := by
    intro pr e he
    unfold corrStep at he
    split at he
    · next c heq =>
        split at he
        · next habs =>
            have he' := Option.some.inj he
            subst he'
            exact ⟨rfl, c, heq, habs, rfl⟩
        · exact absurd he (by simp)
    · exact absurd he (by simp)
  refine ⟨?_, ?_, ?_⟩
  · intro e he
    rw [hcorrEq] at he
    by_cases h2 : 2 ≤ (numericColsOf types).length
    · rw [if_pos h2] at he
      obtain ⟨pr, hpr, hse⟩ := List.mem_filterMap.mp he
      obtain ⟨hcols, c, hc, habs, hval⟩ := hstep pr e hse
      refine ⟨by rw [hval]; exact round3_abs_ge_half habs,
        pr.1, pr.2, c, hcols, hc, habs, hval, ?_⟩
      by_contra hlt
      push_neg at hlt
      have := hmin pr hpr (by omega)
      rw [this] at hc
      exact Option.noConfusion hc
    · rw [if_neg h2] at he
      exact absurd he (List.not_mem_nil e)
  · rw [hcorrEq]
    by_cases h2 : 2 ≤ (numericColsOf types).length
    · rw [if_pos h2]
      refine pairwise_filterMap_of (corrStep corrM) ?_ (combinations2_pairwise hnum)
      intro pr qr hne x hx y hy
      obtain ⟨hxc, -⟩ := hstep pr x hx
      obtain ⟨hyc, -⟩ := hstep qr y hy
      rw [hxc, hyc, unordEq_pair_iff]
      exact hne
    · rw [if_neg h2]
      exact List.Pairwise.nil
  · rw [hcatEq]
    by_cases h2 : 2 ≤ (categoricalColsOf types).length
    · rw [if_pos h2]
      rw [List.pairwise_map]
      have hsub : List.Sublist
          ((combinations2 (categoricalColsOf types)).filter
            (fun pr => isPairSmall df pr.1 pr.2))
          (combinations2 (categoricalColsOf types)) :=
        List.filter_sublist _
      refine List.Pairwise.imp ?_ ((combinations2_pairwise hcat).sublist hsub)
      intro pr qr hne
      show ¬ unordEq [pr.1, pr.2] [qr.1, qr.2]
      rw [unordEq_pair_iff]
      exact hne
    · rw [if_neg h2]
      exact List.Pairwise.nil

/-- A 3-row dataframe with two fully numeric columns, for the C6 witness. -/
def wit6Df : DFrame :=
  [("x", [⟨false, 0, false, true, false⟩, ⟨false, 1, false, true, false⟩,
          ⟨false, 2, false, true, false⟩]),
   ("y", [⟨false, 3, false, true, false⟩, ⟨false, 4, false, true, false⟩,
          ⟨false, 5, false, true, false⟩])]

/-- A correlation-matrix oracle defined only on the pair (x, y), for the C6
witness. -/
def wit6CorrM : String → String → Option ℚ :=
  fun a b => if a = "x" && b = "y" then some (mkRat 9 10) else none

/-- The column typing of the C6 witness dataframe. -/
def wit6Types : List (String × String) :=
  [("x", "numeric_continuous"), ("y", "numeric_continuous")]

/-- Witness for C6 at a concrete dataframe, typing and correlation matrix. -/
theorem relation_detector_correlation_contract_witness :
    ((wit6Types.map Prod.fst).Nodup) ∧
    (∀ pr ∈ combinations2 (numericColsOf wit6Types),
      pairCount wit6Df pr.1 pr.2 < 3 → wit6CorrM pr.1 pr.2 = none) ∧
    (∀ e ∈ (detectRelations wit6CorrM wit6Df wit6Types).correlations,
        mkRat 1 2 ≤ |e.value| ∧
        ∃ a b c, e.columns = [a, b] ∧ wit6CorrM a b = some c ∧
          mkRat 1 2 ≤ |c| ∧ e.value = round3 c ∧ 3 ≤ pairCount wit6Df a b) := by
  refine ⟨by decide, by decide, ?_⟩
  exact (relation_detector_correlation_contract wit6CorrM wit6Df wit6Types
    (by decide) (by decide)).1

end CsvToPpt.ModuleB

namespace CsvToPpt.ModuleJ

/-- C2: a free-plan user at the 10-conversion quota whose last reset is in the
current month is denied for every dataset size and slide request; and any user
whose stored reset instant differs from `now` in month or year has the counter
reset to 0 (archiving the prior value, stamping `now`) before the limit check,
which `check_usage_limits` applies by running the reset first. -/
theorem check_and_reserve_quota_denial_and_monthly_reset
    (now : DT) (u : User) (df : Option DataFrame) (req : Option Int)
    (d : DT) :
    (getUserPlan u = "free" → convVal u = 10 →
      u.last_reset_date = some d → d.year = now.year → d.month = now.month →
      ((checkUsageLimits now u df req).1.allowed = false)) ∧
    (u.last_reset_date = some d → (d.year ≠ now.year ∨ d.month ≠ now.month) →
      ((resetMonthlyQuotaIfNeeded now u).conversions_this_month = some 0 ∧
       (resetMonthlyQuotaIfNeeded now u).conversions_last_month = some (convVal u) ∧
       (resetMonthlyQuotaIfNeeded now u).last_reset_date = some now ∧
       checkUsageLimits now u df req =
         checkLimitsAfterReset now (resetMonthlyQuotaIfNeeded now u) df req)) := by
  constructor
  · intro hplan hconv hreset hyear hmonth
    have hreset' : resetMonthlyQuotaIfNeeded now u = u := by
      unfold resetMonthlyQuotaIfNeeded
      rw [hreset]
      simp [hyear, hmonth]
    unfold checkUsageLimits
    rw [hreset']
    unfold checkLimitsAfterReset
    rw [hplan]
    simp [hconv, FREE_MONTHLY_LIMIT]
  · intro hd hdiff
    have hr : resetMonthlyQuotaIfNeeded now u =
        { u with conversions_last_month := some (convVal u),
                 conversions_this_month := some 0,
                 last_reset_date := some now } := by
      unfold resetMonthlyQuotaIfNeeded
      rw [hd]
      simp only [if_pos hdiff]
    refine ⟨?_, ?_, ?_, rfl⟩ <;> rw [hr]

/-- Witness for C2 at a concrete user, clock and inputs. -/
theorem check_and_reserve_quota_denial_and_monthly_reset_witness :
    (checkUsageLimits ⟨2026, 10⟩
      ⟨some "free", some 10, none, some ⟨2026, 10⟩⟩ (some ⟨100⟩) (some 4)).1.allowed = false ∧
    (resetMonthlyQuotaIfNeeded ⟨2026, 10⟩
      ⟨some "free", some 7, none, some ⟨2026, 9⟩⟩).conversions_this_month = some 0 := by
  have h := check_and_reserve_quota_denial_and_monthly_reset
    ⟨2026, 10⟩ ⟨some "free", some 10, none, some ⟨2026, 10⟩⟩ (some ⟨100⟩) (some 4) ⟨2026, 10⟩
  have h2 := check_and_reserve_quota_denial_and_monthly_reset
    ⟨2026, 10⟩ ⟨some "free", some 7, none, some ⟨2026, 9⟩⟩ (some ⟨100⟩) (some 4) ⟨2026, 9⟩
  refine ⟨h.1 (by decide) (by decide) rfl rfl rfl, (h2.2 rfl (by decide)).1⟩

/-- C10: any user whose normalized plan is not `"pro"` gets exactly the free
tier parameters `{max_slides: 8, ai_style: "light", watermark: true,
template: "default"}`, and the free quota, row-count and slide-count limits
are enforced on that user (reading the counter after the monthly reset). -/
theorem non_pro_plan_gets_free_parameters_and_limits
    (now : DT) (u : User) (df : Option DataFrame) (req : Option Int)
    (hplan : getUserPlan u ≠ "pro") :
    applyPlanParameters u =
      { max_slides := some 8, ai_style := "light", watermark := true, template := "default" } ∧
    (convVal (resetMonthlyQuotaIfNeeded now u) ≥ 10 →
      (checkUsageLimits now u df req).1.allowed = false) ∧
    (convVal (resetMonthlyQuotaIfNeeded now u) < 10 → extractRowCount df > 5000 →
      (checkUsageLimits now u df req).1.allowed = false) ∧
    (∀ k, convVal (resetMonthlyQuotaIfNeeded now u) < 10 → extractRowCount df ≤ 5000 →
      req = some k → k > 8 →
      (checkUsageLimits now u df req).1.allowed = false) := by
  have hp : (resetMonthlyQuotaIfNeeded now u).plan = u.plan := by
    unfold resetMonthlyQuotaIfNeeded
    cases u.last_reset_date
    · rfl
    · dsimp only
      split <;> rfl
  have hplan' : getUserPlan (resetMonthlyQuotaIfNeeded now u) = getUserPlan u := by
    unfold getUserPlan
    rw [hp]
  refine ⟨?_, ?_, ?_, ?_⟩
  · unfold applyPlanParameters
    rw [if_neg hplan]
    rfl
  · intro hconv
    unfold checkUsageLimits checkLimitsAfterReset
    rw [hplan', if_neg hplan]
    simp only [FREE_MONTHLY_LIMIT]
    rw [if_pos hconv]
  · intro hconv hrows
    unfold checkUsageLimits checkLimitsAfterReset
    rw [hplan', if_neg hplan]
    simp only [FREE_MONTHLY_LIMIT, FREE_MAX_ROWS]
    rw [if_neg (by omega), if_pos hrows]
  · intro k hconv hrows hreq hk
    unfold checkUsageLimits checkLimitsAfterReset
    rw [hplan', if_neg hplan]
    simp only [FREE_MONTHLY_LIMIT, FREE_MAX_ROWS]
    rw [if_neg (by omega), if_neg (by omega), hreq]
    simp only [FREE_MAX_SLIDES]
    rw [if_pos ⟨by omega, hk⟩]

/-- Witness for C10: an unrecognized plan string falls back to the free tier
and is denied at the quota. -/
theorem non_pro_plan_gets_free_parameters_and_limits_witness :
    applyPlanParameters ⟨some "  Premium ", some 10, none, some ⟨2026, 10⟩⟩ =
      { max_slides := some 8, ai_style := "light", watermark := true,
        template := "default" } ∧
    (checkUsageLimits ⟨2026, 10⟩ ⟨some "  Premium ", some 10, none, some ⟨2026, 10⟩⟩
      (some ⟨100⟩) none).1.allowed = false := by
  have h := non_pro_plan_gets_free_parameters_and_limits ⟨2026, 10⟩
    ⟨some "  Premium ", some 10, none, some ⟨2026, 10⟩⟩ (some ⟨100⟩) none (by decide)
  exact ⟨h.1, h.2.1 (by decide)⟩

end CsvToPpt.ModuleJ

namespace CsvToPpt

/- ========================================================================
   Orchestrator — backend/services/pipeline.py
   ======================================================================== -/

namespace Pipeline

/-- One plot dict produced by module C as the orchestrator reads it:
`plot.get("file_path")` may be absent (`none`). -/
structure PlotRec where
  column : String
  graph_type : String
  file_path : Option String
deriving Repr, DecidableEq

/-- The file system at filter time, as the orchestrator probes it:
`Path(p).exists()` is `isSome`, and the file's byte size is carried to state
the spec's "non-empty file" invariant. -/
def FileSys := String → Option Nat

/-- `if image_path and Path(image_path).exists()` for one plot. -/
def keepPlot (fs : FileSys) (p : PlotRec) : Bool :=
  match p.file_path with
  | some path => path ≠ "" && (fs path).isSome
  | none => false

/-- The warning recorded for a dropped plot. -/
def warnMissing (p : PlotRec) : String :=
  "Graphique ignoré pour " ++ p.column ++ " (fichier non généré)"

/-- The warning recorded when no valid plot remains. -/
def warnNoValidPlot : String := "Aucun graphique valide n'a pu être généré."

/-- The `rendering → governing` filter of `pipeline_run` (lines 90-101):
keep plots whose image path is set and exists, one warning per dropped plot,
plus one extra warning when the valid list comes out empty — the run then
simply proceeds. -/
def renderingToGoverning (fs : FileSys) (plots : List PlotRec) :
    List PlotRec × List String :=
  let valid := plots.filter (keepPlot fs)
  let warns := (plots.filter (fun p => !(keepPlot fs p))).map warnMissing
  if valid.isEmpty then (valid, warns ++ [warnNoValidPlot])
  else (valid, warns)

/-- `_enforce_slide_cap(plots, diagnostic, max_slides)`.  `if not max_slides`
treats both `None` and `0` as "no cap"; `diagnostic` enters through its
truthiness (non-empty dict). -/
def enforceSlideCap (plots : List PlotRec) (diagnosticPresent : Bool)
    (maxSlides : Option Int) : List PlotRec × Nat :=
  match maxSlides with
  | none => (plots, 0)
  | some m =>
      if m = 0 then (plots, 0)
      else
        let baseSlides : Int := 2 + (if diagnosticPresent then 1 else 0)
        let allowedPlotSlides : Int := max (m - baseSlides) 0
        if (plots.length : Int) ≤ allowedPlotSlides then (plots, 0)
        else (plots.take allowedPlotSlides.toNat,
              plots.length - allowedPlotSlides.toNat)

end Pipeline

end CsvToPpt

namespace CsvToPpt.Pipeline

/-- C3: with `max_slides = 8` and a diagnostic present, the cap keeps at most
8 − 3 = 5 chart artifacts, the kept list is a prefix of the input (priority
order), and the reported dropped count is exactly the original length minus
the kept length (0 when nothing is dropped). -/
theorem slide_cap_eight_with_diagnostic (plots : List PlotRec) :
    (enforceSlideCap plots true (some 8)).1.length ≤ 5 ∧
    (enforceSlideCap plots true (some 8)).1 <+: plots ∧
    (enforceSlideCap plots true (some 8)).2 =
      plots.length - (enforceSlideCap plots true (some 8)).1.length := by
  have hcap : enforceSlideCap plots true (some 8) =
      (if (plots.length : Int) ≤ 5 then (plots, 0)
       else (plots.take 5, plots.length - 5)) := by
    unfold enforceSlideCap
    norm_num
    rfl
  rw [hcap]
  by_cases h : (plots.length : Int) ≤ 5
  · rw [if_pos h]
    exact ⟨by exact_mod_cast h, List.prefix_refl plots,
      show (0 : ℕ) = plots.length - plots.length by omega⟩
  · rw [if_neg h]
    have h5 : 5 < plots.length := by exact_mod_cast not_le.mp h
    refine ⟨?_, List.take_prefix 5 plots, ?_⟩
    · rw [List.length_take]
      omega
    · rw [List.length_take]
      omega

/-- C4 counterexample: the filter only checks `Path(...).exists()`, never the
file size, so an artifact whose backing file exists but is empty (0 bytes) is
passed to assembly — the claim's "non-empty backing image file" fails. -/
theorem artifact_filter_nonempty_counterexample :
    (renderingToGoverning
        (fun p => if p = "chart.png" then some 0 else none)
        [⟨"col", "histogram", some "chart.png"⟩]).1
      = [⟨"col", "histogram", some "chart.png"⟩] ∧
    ¬ (∀ p ∈ (renderingToGoverning
          (fun p => if p = "chart.png" then some 0 else none)
          [⟨"col", "histogram", some "chart.png"⟩]).1,
        ∃ path n, p.file_path = some path ∧
          (if path = "chart.png" then some 0 else none) = some n ∧ 0 < n) := by
  constructor
  · decide
  · intro h
    have hmem := h ⟨"col", "histogram", some "chart.png"⟩ (by decide)
    obtain ⟨path, n, hpath, hfs, hn⟩ := hmem
    have hp : path = "chart.png" := by
      exact (Option.some.inj hpath).symm
    subst hp
    rw [if_pos rfl] at hfs
    have : (0 : Nat) = n := Option.some.inj hfs
    omega

/-- C4 amended: every artifact the orchestrator passes into assembly has a
set, non-empty image path whose file EXISTS (the filter does not check the
file's size); every filtered-out artifact contributes exactly its warning
rather than an error, and an emptied artifact list only appends one more
warning while the stage still returns normally. -/
theorem artifact_filter_existing_file_and_warnings
    (fs : FileSys) (plots : List PlotRec) :
    (∀ p ∈ (renderingToGoverning fs plots).1,
      ∃ path, p.file_path = some path ∧ path ≠ "" ∧ (fs path).isSome) ∧
    (∀ p ∈ plots, keepPlot fs p = false →
      warnMissing p ∈ (renderingToGoverning fs plots).2) ∧
    ((renderingToGoverning fs plots).1 = [] →
      warnNoValidPlot ∈ (renderingToGoverning fs plots).2) := by
  have h1 : (renderingToGoverning fs plots).1 = plots.filter (keepPlot fs) := by
    unfold renderingToGoverning
    by_cases he : (List.filter (keepPlot fs) plots).isEmpty
    · rw [if_pos he]
    · rw [if_neg he]
  have h2 : (renderingToGoverning fs plots).2 =
      ((plots.filter (fun p => !(keepPlot fs p))).map warnMissing) ++
      (if (plots.filter (keepPlot fs)).isEmpty then [warnNoValidPlot] else []) := by
    unfold renderingToGoverning
    by_cases he : (List.filter (keepPlot fs) plots).isEmpty
    · rw [if_pos he, if_pos he]
    · rw [if_neg he, if_neg he, List.append_nil]
  refine ⟨?_, ?_, ?_⟩
  · intro p hp
    rw [h1] at hp
    have hk : keepPlot fs p = true := (List.mem_filter.mp hp).2
    unfold keepPlot at hk
    cases hpath : p.file_path with
    | none => rw [hpath] at hk; exact absurd hk (by simp)
    | some path =>
        rw [hpath] at hk
        simp only [Bool.and_eq_true] at hk
        exact ⟨path, rfl, by simpa using hk.1, hk.2⟩
  · intro p hp hdrop
    rw [h2]
    refine List.mem_append_left _ ?_
    exact List.mem_map_of_mem _ (List.mem_filter.mpr ⟨hp, by simp [hdrop]⟩)
  · intro hempty
    rw [h1] at hempty
    rw [h2, if_pos (by simp [hempty])]
    exact List.mem_append_right _ (List.mem_singleton.mpr rfl)

/-- Witness for the amended C4: one plot with an existing file is kept, one
with a missing file is dropped with its warning. -/
theorem artifact_filter_existing_file_and_warnings_witness :
    keepPlot (fun p => if p = "ok.png" then some 120 else none)
      ⟨"b", "boxplot", some "gone.png"⟩ = false ∧
    warnMissing ⟨"b", "boxplot", some "gone.png"⟩ ∈
      (renderingToGoverning (fun p => if p = "ok.png" then some 120 else none)
        [⟨"a", "histogram", some "ok.png"⟩, ⟨"b", "boxplot", some "gone.png"⟩]).2 := by
  refine ⟨by decide, ?_⟩
  exact (artifact_filter_existing_file_and_warnings
      (fun p => if p = "ok.png" then some 120 else none)
      [⟨"a", "histogram", some "ok.png"⟩, ⟨"b", "boxplot", some "gone.png"⟩]).2.1
    ⟨"b", "boxplot", some "gone.png"⟩ (by decide) (by decide)

end CsvToPpt.Pipeline

namespace CsvToPpt

/- ========================================================================
   Module C — backend/modules/module_c_plotting.py
   ======================================================================== -/

namespace ModuleC

/-- One `{"column": ..., "graph_type": ..., "file_path": ...}` plot entry. -/
structure PlotOut where
  column : String
  graph_type : String
  file_path : String
deriving Repr, DecidableEq

/-- One error entry.  The per-pair entries carry `graph_type`; the
missing-column entry (`{"column": ..., "reason": ...}`) does not. -/
structure ErrOut where
  column : String
  graph_type : Option String
  reason : String
deriving Repr, DecidableEq

/-- The `{"plots": ..., "errors": ...}` output of `generate_plots`. -/
structure PlotsResult where
  plots : List PlotOut
  errors : List ErrOut
deriving Repr, DecidableEq

/-- The outcome of `_plot_single(series, column_type, graph_type, file)` for a
(column, graph_type) pair: `none` = rendered, `some reason` = the raised
exception's message.  The drawing itself is the external matplotlib backend. -/
def RenderOracle := String → String → Option String

/-- The outcome of `plot_heatmap` for a relation (label, kind). -/
def RelRenderOracle := String → String → Option String

/-- `pd.crosstab(df[a], df[b]).shape`, an external pandas computation. -/
def CrossDims := String → String → Nat × Nat

/-- The inner `for graph_type in graph_types` loop: each pair independently
appends either a plot entry or an error entry. -/
def renderLoop (render : RenderOracle) (out : String) (c : String) :
    List String → List PlotOut × List ErrOut
  | [] => ([], [])
  | g :: gs =>
      match render c g with
      | none =>
          (PlotOut.mk c g (out ++ "/" ++ c ++ "__" ++ g ++ ".png")
             :: (renderLoop render out c gs).1,
           (renderLoop render out c gs).2)
      | some r =>
          ((renderLoop render out c gs).1,
           ErrOut.mk c (some g) r :: (renderLoop render out c gs).2)

/-- One candidate column: a missing column produces a single column-level
error entry, otherwise every planned kind is attempted. -/
def perColumnEntries (render : RenderOracle) (out : String) (dfCols : List String)
    (c : String) (gs : List String) : List PlotOut × List ErrOut :=
  if c ∈ dfCols then renderLoop render out c gs
  else ([], [ErrOut.mk c none "colonne introuvable"])

/-- The `for column, graph_types in candidates.items()` loop. -/
def colStage (render : RenderOracle) (out : String) (dfCols : List String) :
    List (String × List String) → List PlotOut × List ErrOut
  | [] => ([], [])
  | pr :: rest =>
      let e := perColumnEntries render out dfCols pr.1 pr.2
      let r := colStage render out dfCols rest
      (e.1 ++ r.1, e.2 ++ r.2)

/-- The correlation pass of `_handle_relations`. -/
def corrLoop (relRender : RelRenderOracle) (out : String) :
    List (List String) → List PlotOut × List ErrOut
  | [] => ([], [])
  | cols :: rest =>
      if cols.length = 2 then
        match relRender (String.intercalate "+" cols) "correlation_heatmap" with
        | none =>
            (PlotOut.mk (String.intercalate "+" cols) "correlation_heatmap"
               (out ++ "/" ++ String.intercalate "_" cols ++ "__correlation_heatmap.png")
               :: (corrLoop relRender out rest).1,
             (corrLoop relRender out rest).2)
        | some reason =>
            ((corrLoop relRender out rest).1,
             ErrOut.mk (String.intercalate "+" cols) (some "correlation_heatmap") reason
               :: (corrLoop relRender out rest).2)
      else corrLoop relRender out rest

/-- The categorical-pair pass of `_handle_relations`: pairs whose cross-tab is
empty or exceeds 30×30 are skipped without any entry. -/
def catLoop (relRender : RelRenderOracle) (crossDims : CrossDims) (out : String) :
    List (List String) → List PlotOut × List ErrOut
  | [] => ([], [])
  | cols :: rest =>
      if cols.length = 2 then
        if (crossDims cols.headI cols.getLastI).1 * (crossDims cols.headI cols.getLastI).2 = 0
            ∨ (crossDims cols.headI cols.getLastI).1 > 30
            ∨ (crossDims cols.headI cols.getLastI).2 > 30 then
          catLoop relRender crossDims out rest
        else
          match relRender (String.intercalate "+" cols) "categorical_heatmap" with
          | none =>
              (PlotOut.mk (String.intercalate "+" cols) "categorical_heatmap"
                 (out ++ "/" ++ String.intercalate "_" cols ++ "__categorical_heatmap.png")
                 :: (catLoop relRender crossDims out rest).1,
               (catLoop relRender crossDims out rest).2)
          | some reason =>
              ((catLoop relRender crossDims out rest).1,
               ErrOut.mk (String.intercalate "+" cols) (some "categorical_heatmap") reason
                 :: (catLoop relRender crossDims out rest).2)
      else catLoop relRender crossDims out rest

/-- `_handle_relations(df, analysis, output_path, output)`: correlation
heatmaps first, then categorical heatmaps, appended to the running output. -/
def handleRelations (relRender : RelRenderOracle) (crossDims : CrossDims)
    (out : String) (correlations catPairs : List (List String)) :
    List PlotOut × List ErrOut :=
  let c := corrLoop relRender out correlations
  let k := catLoop relRender crossDims out catPairs
  (c.1 ++ k.1, c.2 ++ k.2)

/-- `generate_plots(df, analysis, output_dir)`: the per-column loop over
`visualization_candidates`, then the relations pass, accumulating into the
same plots/errors lists. -/
def generatePlots (render : RenderOracle) (relRender : RelRenderOracle)
    (crossDims : CrossDims) (out : String) (dfCols : List String)
    (candidates : List (String × List String))
    (correlations catPairs : List (List String)) : PlotsResult :=
  let c := colStage render out dfCols candidates
  let r := handleRelations relRender crossDims out correlations catPairs
  ⟨c.1 ++ r.1, c.2 ++ r.2⟩

/-- The chart kinds `detect_visualization_options` can plan for a column. -/
def plannerKinds : List String :=
  ["histogram", "boxplot", "density", "linechart", "barchart", "top_categories"]

end ModuleC

end CsvToPpt

namespace CsvToPpt.ModuleC

/-- Every entry emitted by the inner render loop is labelled with its column. -/
lemma renderLoop_columns (render : RenderOracle) (out c : String) :
    ∀ gs : List String,
      (∀ p ∈ (renderLoop render out c gs).1, p.column = c) ∧
      (∀ e ∈ (renderLoop render out c gs).2, e.column = c) := by
  intro gs
  induction gs with
  | nil => simp [renderLoop]
  | cons g gs ih =>
    rcases ih with ⟨ih1, ih2⟩
    cases hr : render c g with
    | none =>
        refine ⟨?_, by simpa [renderLoop, hr] using ih2⟩
        intro p hp
        rw [renderLoop] at hp
        rw [hr] at hp
        rcases List.mem_cons.mp hp with rfl | hp
        · rfl
        · exact ih1 p hp
    | some r =>
        refine ⟨by simpa [renderLoop, hr] using ih1, ?_⟩
        intro e he
        rw [renderLoop] at he
        rw [hr] at he
        rcases List.mem_cons.mp he with rfl | he
        · rfl
        · exact ih2 e he

/-- Every entry of the per-column stage is labelled with one of the candidate
columns. -/
lemma colStage_columns (render : RenderOracle) (out : String) (dfCols : List String) :
    ∀ cands : List (String × List String),
      (∀ p ∈ (colStage render out dfCols cands).1, p.column ∈ cands.map Prod.fst) ∧
      (∀ e ∈ (colStage render out dfCols cands).2, e.column ∈ cands.map Prod.fst) := by
  intro cands
  induction cands with
  | nil => simp [colStage]
  | cons pr rest ih =>
    unfold colStage
    constructor
    · intro p hp
      rcases List.mem_append.mp hp with hp | hp
      · unfold perColumnEntries at hp
        by_cases hc : pr.1 ∈ dfCols
        · rw [if_pos hc] at hp
          rw [List.map_cons]
          exact List.mem_cons.mpr (Or.inl ((renderLoop_columns render out pr.1 pr.2).1 p hp))
        · rw [if_neg hc] at hp
          exact absurd hp (List.not_mem_nil p)
      · rw [List.map_cons]
        exact List.mem_cons.mpr (Or.inr (ih.1 p hp))
    · intro e he
      rcases List.mem_append.mp he with he | he
      · unfold perColumnEntries at he
        by_cases hc : pr.1 ∈ dfCols
        · rw [if_pos hc] at he
          rw [List.map_cons]
          exact List.mem_cons.mpr (Or.inl ((renderLoop_columns render out pr.1 pr.2).2 e he))
        · rw [if_neg hc] at he
          rw [List.mem_singleton.mp he, List.map_cons]
          exact List.mem_cons.mpr (Or.inl rfl)
      · rw [List.map_cons]
        exact List.mem_cons.mpr (Or.inr (ih.2 e he))

/-- Every plot entry of the correlation pass is a correlation heatmap. -/
lemma corrLoop_kinds (relRender : RelRenderOracle) (out : String) :
    ∀ cols : List (List String),
      (∀ p ∈ (corrLoop relRender out cols).1, p.graph_type = "correlation_heatmap") ∧
      (∀ e ∈ (corrLoop relRender out cols).2, e.graph_type = some "correlation_heatmap") := by
  intro cols
  induction cols with
  | nil => simp [corrLoop]
  | cons c rest ih =>
    rcases ih with ⟨ih1, ih2⟩
    by_cases h2 : c.length = 2
    · cases hr : relRender (String.intercalate "+" c) "correlation_heatmap" with
      | none =>
          refine ⟨?_, by simpa [corrLoop, h2, hr] using ih2⟩
          intro p hp
          rw [corrLoop, if_pos h2] at hp
          rw [hr] at hp
          rcases List.mem_cons.mp hp with rfl | hp
          · rfl
          · exact ih1 p hp
      | some r =>
          refine ⟨by simpa [corrLoop, h2, hr] using ih1, ?_⟩
          intro e he
          rw [corrLoop, if_pos h2] at he
          rw [hr] at he
          rcases List.mem_cons.mp he with rfl | he
          · rfl
          · exact ih2 e he
    · constructor
      · intro p hp
        rw [corrLoop, if_neg h2] at hp
        exact ih1 p hp
      · intro e he
        rw [corrLoop, if_neg h2] at he
        exact ih2 e he

/-- Every plot entry of the categorical pass is a categorical heatmap. -/
lemma catLoop_kinds (relRender : RelRenderOracle) (crossDims : CrossDims) (out : String) :
    ∀ cols : List (List String),
      (∀ p ∈ (catLoop relRender crossDims out cols).1, p.graph_type = "categorical_heatmap") ∧
      (∀ e ∈ (catLoop relRender crossDims out cols).2, e.graph_type = some "categorical_heatmap") := by
  intro cols
  induction cols with
  | nil => simp [catLoop]
  | cons c rest ih =>
    rcases ih with ⟨ih1, ih2⟩
    by_cases h2 : c.length = 2
    · by_cases hskip : (crossDims c.headI c.getLastI).1 * (crossDims c.headI c.getLastI).2 = 0
          ∨ (crossDims c.headI c.getLastI).1 > 30 ∨ (crossDims c.headI c.getLastI).2 > 30
      · constructor
        · intro p hp
          rw [catLoop, if_pos h2, if_pos hskip] at hp
          exact ih1 p hp
        · intro e he
          rw [catLoop, if_pos h2, if_pos hskip] at he
          exact ih2 e he
      · cases hr : relRender (String.intercalate "+" c) "categorical_heatmap" with
        | none =>
            constructor
            · intro p hp
              rw [catLoop, if_pos h2, if_neg hskip] at hp
              rw [hr] at hp
              rcases List.mem_cons.mp hp with rfl | hp
              · rfl
              · exact ih1 p hp
            · intro e he
              rw [catLoop, if_pos h2, if_neg hskip] at he
              rw [hr] at he
              exact ih2 e he
        | some r =>
            constructor
            · intro p hp
              rw [catLoop, if_pos h2, if_neg hskip] at hp
              rw [hr] at hp
              exact ih1 p hp
            · intro e he
              rw [catLoop, if_pos h2, if_neg hskip] at he
              rw [hr] at he
              rcases List.mem_cons.mp he with rfl | he
              · rfl
              · exact ih2 e he
    · constructor
      · intro p hp
        rw [catLoop, if_neg h2] at hp
        exact ih1 p hp
      · intro e he
        rw [catLoop, if_neg h2] at he
        exact ih2 e he

/-- Every entry of the relations pass carries a heatmap kind (never one of
the planner's per-column kinds). -/
lemma handleRelations_kinds (relRender : RelRenderOracle) (crossDims : CrossDims)
    (out : String) (correlations catPairs : List (List String)) :
    (∀ p ∈ (handleRelations relRender crossDims out correlations catPairs).1,
      p.graph_type = "correlation_heatmap" ∨ p.graph_type = "categorical_heatmap") ∧
    (∀ e ∈ (handleRelations relRender crossDims out correlations catPairs).2,
      e.graph_type = some "correlation_heatmap" ∨
      e.graph_type = some "categorical_heatmap") := by
  unfold handleRelations
  constructor
  · intro p hp
    rcases List.mem_append.mp hp with hp | hp
    · exact Or.inl ((corrLoop_kinds relRender out correlations).1 p hp)
    · exact Or.inr ((catLoop_kinds relRender crossDims out catPairs).1 p hp)
  · intro e he
    rcases List.mem_append.mp he with he | he
    · exact Or.inl ((corrLoop_kinds relRender out correlations).2 e he)
    · exact Or.inr ((catLoop_kinds relRender crossDims out catPairs).2 e he)

/-- Per-pair counts of the inner render loop: each occurrence of kind `g`
contributes one plot entry when its render succeeds and one error entry when
it raises. -/
lemma renderLoop_counts (render : RenderOracle) (out c g : String) :
    ∀ gs : List String,
      (renderLoop render out c gs).1.countP
          (fun p => p.column == c && p.graph_type == g) =
        (if render c g = none then gs.count g else 0) ∧
      (renderLoop render out c gs).2.countP
          (fun e => e.column == c && e.graph_type == some g) =
        (if render c g = none then 0 else gs.count g) := by
  intro gs
  induction gs with
  | nil => simp [renderLoop]
  | cons g' gs ih =>
    rcases ih with ⟨ih1, ih2⟩
    by_cases hg : g' = g
    · subst hg
      cases hr : render c g' with
      | none =>
          rw [hr] at ih1 ih2
          simp only [if_pos rfl] at ih1 ih2
          rw [renderLoop]
          rw [hr]
          simp [List.countP_cons, ih1, ih2, List.count_cons_self]
      | some r =>
          rw [hr] at ih1 ih2
          simp only [reduceCtorEq, if_neg] at ih1 ih2
          rw [renderLoop]
          rw [hr]
          simp [List.countP_cons, ih1, ih2, List.count_cons_self, hr]
    · have hcount : (g' :: gs).count g = gs.count g :=
        List.count_cons_of_ne (fun h => hg h.symm) gs
      cases hr : render c g' with
      | none =>
          rw [renderLoop]
          rw [hr]
          simp [List.countP_cons, ih1, ih2, hcount, hg]
      | some r =>
          rw [renderLoop]
          rw [hr]
          simp [List.countP_cons, ih1, ih2, hcount, hg]

/-- Per-pair counts over the whole candidates loop: with dict-unique column
names, a present candidate column and duplicate-free kinds, each planned
(column, kind) pair contributes exactly one entry, a plot on success and an
error on failure. -/
lemma colStage_counts (render : RenderOracle) (out : String) (dfCols : List String) :
    ∀ cands : List (String × List String), (cands.map Prod.fst).Nodup →
      ∀ pr ∈ cands, pr.1 ∈ dfCols → pr.2.Nodup → ∀ g ∈ pr.2,
        (colStage render out dfCols cands).1.countP
            (fun p => p.column == pr.1 && p.graph_type == g) =
          (if render pr.1 g = none then 1 else 0) ∧
        (colStage render out dfCols cands).2.countP
            (fun e => e.column == pr.1 && e.graph_type == some g) =
          (if render pr.1 g = none then 0 else 1) := by
  intro cands
  induction cands with
  | nil =>
    intro _ pr hpr
    exact absurd hpr (List.not_mem_nil pr)
  | cons qr rest ih =>
    intro hkeys pr hpr hc hnd g hg
    rw [List.map_cons, List.nodup_cons] at hkeys
    rcases hkeys with ⟨hq1, hrest⟩
    have happ1 : (colStage render out dfCols (qr :: rest)).1 =
        (perColumnEntries render out dfCols qr.1 qr.2).1 ++
        (colStage render out dfCols rest).1 := rfl
    have happ2 : (colStage render out dfCols (qr :: rest)).2 =
        (perColumnEntries render out dfCols qr.1 qr.2).2 ++
        (colStage render out dfCols rest).2 := rfl
    rw [happ1, happ2, List.countP_append, List.countP_append]
    rcases List.mem_cons.mp hpr with rfl | hpr
    · -- the head candidate is the one under scrutiny
      have hcount1 : pr.2.count g = 1 := List.count_eq_one_of_mem hnd hg
      have hrl := renderLoop_counts render out pr.1 g pr.2
      have hpc1 : (perColumnEntries render out dfCols pr.1 pr.2).1.countP
          (fun p => p.column == pr.1 && p.graph_type == g) =
          (if render pr.1 g = none then 1 else 0) := by
        unfold perColumnEntries
        rw [if_pos hc, hrl.1, hcount1]
      have hpc2 : (perColumnEntries render out dfCols pr.1 pr.2).2.countP
          (fun e => e.column == pr.1 && e.graph_type == some g) =
          (if render pr.1 g = none then 0 else 1) := by
        unfold perColumnEntries
        rw [if_pos hc, hrl.2, hcount1]
      have hz1 : (colStage render out dfCols rest).1.countP
          (fun p => p.column == pr.1 && p.graph_type == g) = 0 := by
        rw [List.countP_eq_zero]
        intro x hx
        simp only [Bool.and_eq_true, beq_iff_eq, not_and]
        intro hcol
        exact absurd (hcol ▸ (colStage_columns render out dfCols rest).1 x hx) hq1
      have hz2 : (colStage render out dfCols rest).2.countP
          (fun e => e.column == pr.1 && e.graph_type == some g) = 0 := by
        rw [List.countP_eq_zero]
        intro x hx
        simp only [Bool.and_eq_true, beq_iff_eq, not_and]
        intro hcol
        exact absurd (hcol ▸ (colStage_columns render out dfCols rest).2 x hx) hq1
      rw [hpc1, hpc2, hz1, hz2]
      exact ⟨Nat.add_zero _, Nat.add_zero _⟩
    · -- the candidate lives in the tail
      have hne : qr.1 ≠ pr.1 := by
        intro h
        exact hq1 (h ▸ List.mem_map_of_mem Prod.fst hpr)
      have hqcols : (∀ p ∈ (perColumnEntries render out dfCols qr.1 qr.2).1,
            p.column = qr.1) ∧
          (∀ e ∈ (perColumnEntries render out dfCols qr.1 qr.2).2, e.column = qr.1) := by
        unfold perColumnEntries
        by_cases hcq : qr.1 ∈ dfCols
        · rw [if_pos hcq]
          exact renderLoop_columns render out qr.1 qr.2
        · rw [if_neg hcq]
          refine ⟨by simp, ?_⟩
          intro e he
          rw [List.mem_singleton.mp he]
      have hz1 : (perColumnEntries render out dfCols qr.1 qr.2).1.countP
          (fun p => p.column == pr.1 && p.graph_type == g) = 0 := by
        rw [List.countP_eq_zero]
        intro x hx
        simp only [Bool.and_eq_true, beq_iff_eq, not_and]
        intro hcol
        exact absurd (hcol ▸ hqcols.1 x hx).symm hne
      have hz2 : (perColumnEntries render out dfCols qr.1 qr.2).2.countP
          (fun e => e.column == pr.1 && e.graph_type == some g) = 0 := by
        rw [List.countP_eq_zero]
        intro x hx
        simp only [Bool.and_eq_true, beq_iff_eq, not_and]
        intro hcol
        exact absurd (hcol ▸ hqcols.2 x hx).symm hne
      have hih := ih hrest pr hpr hc hnd g hg
      rw [hz1, hz2, hih.1, hih.2]
      exact ⟨Nat.zero_add _, Nat.zero_add _⟩

/-- C7: chart rendering is exhaustive and failure-isolated over the planned
per-column pairs.  Hypotheses reflect how `generate_plots` is invoked:
`visualization_candidates` is a Python dict whose keys are dataframe columns
(`analyze_dataset` builds it from `df.columns`), each per-column kind list is
duplicate-free and drawn from the planner's fixed vocabulary.  Then every
planned (column, kind) pair yields exactly one entry across the plots and
errors lists together, and that entry is a plot exactly when the pair's own
render call succeeds — failures of other pairs cannot remove it. -/
theorem chart_render_failure_isolated_exhaustive
    (render : RenderOracle) (relRender : RelRenderOracle) (crossDims : CrossDims)
    (out : String) (dfCols : List String)
    (candidates : List (String × List String))
    (correlations catPairs : List (List String))
    (hkeys : (candidates.map Prod.fst).Nodup) :
    ∀ pr ∈ candidates, pr.1 ∈ dfCols → pr.2.Nodup →
      (∀ k ∈ pr.2, k ∈ plannerKinds) → ∀ g ∈ pr.2,
      ((generatePlots render relRender crossDims out dfCols candidates
          correlations catPairs).plots.countP
            (fun p => p.column == pr.1 && p.graph_type == g) +
       (generatePlots render relRender crossDims out dfCols candidates
          correlations catPairs).errors.countP
            (fun e => e.column == pr.1 && e.graph_type == some g) = 1) ∧
      ((generatePlots render relRender crossDims out dfCols candidates
          correlations catPairs).plots.countP
            (fun p => p.column == pr.1 && p.graph_type == g) =
        (if render pr.1 g = none then 1 else 0)) := by
  intro pr hpr hc hnd hkinds g hg
  have hgk := hkinds g hg
  have hnotheat : g ≠ "correlation_heatmap" ∧ g ≠ "categorical_heatmap" := by
    have hall : ∀ k ∈ plannerKinds,
        k ≠ "correlation_heatmap" ∧ k ≠ "categorical_heatmap" := by decide
    exact hall g hgk
  have hp : (generatePlots render relRender crossDims out dfCols candidates
      correlations catPairs).plots =
      (colStage render out dfCols candidates).1 ++
      (handleRelations relRender crossDims out correlations catPairs).1 := rfl
  have he : (generatePlots render relRender crossDims out dfCols candidates
      correlations catPairs).errors =
      (colStage render out dfCols candidates).2 ++
      (handleRelations relRender crossDims out correlations catPairs).2 := rfl
  have hrz1 : (handleRelations relRender crossDims out correlations catPairs).1.countP
      (fun p => p.column == pr.1 && p.graph_type == g) = 0 := by
    rw [List.countP_eq_zero]
    intro x hx
    simp only [Bool.and_eq_true, beq_iff_eq, not_and]
    intro _hcol
    rcases (handleRelations_kinds relRender crossDims out correlations catPairs).1 x hx
      with hk | hk
    · rw [hk]; exact fun h => hnotheat.1 h.symm
    · rw [hk]; exact fun h => hnotheat.2 h.symm
  have hrz2 : (handleRelations relRender crossDims out correlations catPairs).2.countP
      (fun e => e.column == pr.1 && e.graph_type == some g) = 0 := by
    rw [List.countP_eq_zero]
    intro x hx
    simp only [Bool.and_eq_true, beq_iff_eq, not_and]
    intro _hcol
    rcases (handleRelations_kinds relRender crossDims out correlations catPairs).2 x hx
      with hk | hk
    · rw [hk]
      intro h
      exact hnotheat.1 (Option.some.inj h).symm
    · rw [hk]
      intro h
      exact hnotheat.2 (Option.some.inj h).symm
  have hcs := colStage_counts render out dfCols candidates hkeys pr hpr hc hnd g hg
  rw [hp, he, List.countP_append, List.countP_append, hrz1, hrz2, hcs.1, hcs.2]
  constructor
  · cases hrender : render pr.1 g <;> simp
  · omega

/-- The render oracle of the C7 witness: only (a, boxplot) raises. -/
def wit7render : RenderOracle :=
  fun c g => if c == "a" && g == "boxplot" then some "boom" else none

/-- The candidates dict of the C7 witness. -/
def wit7cands : List (String × List String) :=
  [("a", ["histogram", "boxplot"]), ("b", ["barchart"])]

/-- Witness for C7: with one failing pair among three planned pairs, the
failing pair yields exactly one (error) entry and the pair (a, histogram)
still yields exactly one plot entry. -/
theorem chart_render_failure_isolated_exhaustive_witness :
    ((wit7cands.map Prod.fst).Nodup) ∧
    ((generatePlots wit7render (fun _ _ => none) (fun _ _ => (0, 0)) "plots"
        ["a", "b"] wit7cands [] []).plots.countP
          (fun p => p.column == "a" && p.graph_type == "boxplot") +
     (generatePlots wit7render (fun _ _ => none) (fun _ _ => (0, 0)) "plots"
        ["a", "b"] wit7cands [] []).errors.countP
          (fun e => e.column == "a" && e.graph_type == some "boxplot") = 1) ∧
    ((generatePlots wit7render (fun _ _ => none) (fun _ _ => (0, 0)) "plots"
        ["a", "b"] wit7cands [] []).plots.countP
          (fun p => p.column == "a" && p.graph_type == "histogram") =
      (if wit7render "a" "histogram" = none then 1 else 0)) := by
  have h1 := chart_render_failure_isolated_exhaustive wit7render
    (fun _ _ => none) (fun _ _ => (0, 0)) "plots" ["a", "b"] wit7cands [] []
    (by decide) ("a", ["histogram", "boxplot"]) (by decide) (by decide)
    (by decide) (by decide) "boxplot" (by decide)
  have h2 := chart_render_failure_isolated_exhaustive wit7render
    (fun _ _ => none) (fun _ _ => (0, 0)) "plots" ["a", "b"] wit7cands [] []
    (by decide) ("a", ["histogram", "boxplot"]) (by decide) (by decide)
    (by decide) (by decide) "histogram" (by decide)
  exact ⟨by decide, h1.1, h2.2⟩

end CsvToPpt.ModuleC

namespace CsvToPpt

/- ========================================================================
   Module H — backend/modules/module_h_texts_ai.py
   (with the module_d_texts.py fallback it calls)
   ======================================================================== -/

namespace ModuleH

/-- One per-column profile dict (from `diagnostic["columns"][col]`), reduced
to the keys modules D and H actually read.  A `none` field is an absent key. -/
structure ColProfile where
  dtype : Option String
  column_type : Option String
  missing_percent : Option ℚ
  unique_values : Option Int
  sample : Option (List String)
  examples : Option (List String)
deriving Repr, DecidableEq

/-- The all-absent profile (`{}`). -/
def emptyProfile : ColProfile := ⟨none, none, none, none, none, none⟩

/-- Python dict truthiness of a profile: it has at least one key. -/
def ColProfile.truthy (p : ColProfile) : Bool :=
  p.dtype.isSome || p.column_type.isSome || p.missing_percent.isSome ||
  p.unique_values.isSome || p.sample.isSome || p.examples.isSome

/-- One correlation record of `analysis["relations"]["correlations"]`. -/
structure CorrRel where
  columns : List String
  value : Option ℚ
deriving Repr, DecidableEq

/-- The `analysis_results` dict as modules D and H read it.
`diagnostic_columns` is `diagnostic.get("columns")` (`none` when the
diagnostic or its `columns` key is absent). -/
structure Analysis where
  column_types : List (String × String)
  diagnostic_columns : Option (List (String × ColProfile))
  issues : List (String × List String)
  correlations : List CorrRel
deriving Repr, DecidableEq

/-- One plot dict of the visualization plan, as module H reads it
(`plot.get("column")`, `plot.get("graph_type")` may be absent). -/
structure PlotH where
  column : Option String
  graph_type : Option String
deriving Repr, DecidableEq

/-- A per-column text triple (`analysis` / `insights` / `anomalies`). -/
structure ColText where
  analysis : String
  insights : String
  anomalies : String
deriving Repr, DecidableEq

/-- One `{"cols": ..., "text": ...}` correlation text. -/
structure CorrText where
  cols : List String
  text : String
deriving Repr, DecidableEq

/-- The structure returned by `generate_texts_ai`. -/
structure TextsResult where
  global_intro : String
  global_summary : String
  per_column : List (String × ColText)
  correlations : List CorrText
deriving Repr, DecidableEq

/-- Module H's generic placeholder text. -/
def DEFAULT_GENERIC_TEXT_H : String :=
  "Analyse non disponible faute d'informations suffisantes dans le dataset."

/-- Module D's generic fallback text. -/
def DEFAULT_GENERIC_TEXT_D : String :=
  "Les données présentées mettent en évidence plusieurs tendances clés. " ++
  "Les graphiques permettent de visualiser les variations principales et " ++
  "aident à comprendre rapidement la structure du dataset."

/-- `STYLE_PRESETS` keys. -/
def STYLE_PRESET_KEYS : List String := ["short", "normal", "executive"]

/-- `(style or DEFAULT_STYLE).lower()`, defaulted to `"normal"` when not a
preset key. -/
def styleKeyOf (style : String) : String :=
  let k := ModuleJ.pyLower (if style = "" then "normal" else style)
  if k ∈ STYLE_PRESET_KEYS then k else "normal"

/-- `a or b` on optional strings (empty string is falsy). -/
def pyOrStr (a b : Option String) : Option String :=
  match a with
  | some s => if s = "" then b else some s
  | none => b

/-- `a or b` on optional string lists (empty list is falsy). -/
def pyOrList (a b : Option (List String)) : Option (List String)  :=
  match a with
  | some l => if l.isEmpty then b else some l
  | none => b

/-- `value or default` on a looked-up string. -/
def orDefault (v : Option String) (d : String) : String :=
  match v with
  | some s => if s = "" then d else s
  | none => d

/-- `_column_issues(column, analysis_results)`: the issue kinds whose column
lists contain the column, in dict order. -/
def columnIssues (column : String) (analysis : Analysis) : List String :=
  (analysis.issues.filter (fun pr => column ∈ pr.2)).map Prod.fst

/-- The grouping key of a plot: `plot.get("column") or "inconnu"`. -/
def plotKey (p : PlotH) : String :=
  match p.column with
  | some c => if c = "" then "inconnu" else c
  | none => "inconnu"

/-- Append a plot under its key, preserving first-seen key order
(`dict.setdefault(column, []).append(plot)`). -/
def upsertPlot : List (String × List PlotH) → String → PlotH →
    List (String × List PlotH)
  | [], k, p => [(k, [p])]
  | (k', ps) :: rest, k, p =>
      if k' = k then (k', ps ++ [p]) :: rest
      else (k', ps) :: upsertPlot rest k p

/-- `_group_plots_by_column(plots)`. -/
def groupPlots (plots : List PlotH) : List (String × List PlotH) :=
  plots.foldl (fun acc p => upsertPlot acc (plotKey p) p) []

/-- `ISSUE_LABELS` lookup with the `replace("_", " ")` default. -/
def friendlyIssueName (k : String) : String :=
  if k = "empty_columns" then "colonne vide"
  else if k = "high_missing" then "taux de valeurs manquantes élevé"
  else if k = "bad_format" then "format incohérent"
  else if k = "duplicated_columns" then "risque de doublon"
  else if k = "long_text_columns" then "texte très long"
  else String.mk (k.data.map (fun ch => if ch = '_' then ' ' else ch))

/-- `_friendly_dtype(dtype)`. -/
def friendlyDtype (dtype : String) : String :=
  let fallbackLabel := if dtype = "" then "colonne" else dtype
  let stripped := ModuleJ.pyLower (ModuleJ.pyStrip fallbackLabel)
  if stripped = "numeric_continuous" then "variable numérique continue"
  else if stripped = "numeric_discrete" then "variable numérique discrète"
  else if stripped = "categorical" then "variable catégorielle"
  else if stripped = "categorie" then "variable catégorielle"
  else if stripped = "boolean" then "champ booléen"
  else if stripped = "text" then "champ texte"
  else if stripped = "date" then "donnée temporelle"
  else if stripped = "numerique" then "variable numérique"
  else fallbackLabel

/-- Python `f"{x:.0f}"` on the (non-negative) percentages used here:
round-half-even to an integer. -/
def fmt0 (q : ℚ) : String := toString (ModuleB.roundHalfEven q)

/-- Python `f"{x:.1f}"` on the (non-negative) percentages used here. -/
def fmt1 (q : ℚ) : String :=
  let n := ModuleB.roundHalfEven (q * 10)
  toString (n / 10) ++ "." ++ toString (n % 10)

/-- `_describe_missing_ratio(value)`. -/
def describeMissingRatio (v : Option ℚ) : String :=
  match v with
  | none => ""
  | some pct =>
      if pct ≤ 0 then "Aucune valeur manquante n'a été détectée."
      else if pct ≤ 10 then
        "Seulement " ++ fmt0 pct ++ "% de valeurs manquent à ce stade."
      else if pct ≤ 30 then
        "Le taux de valeurs manquantes reste modéré (" ++ fmt0 pct ++ "%)."
      else "Attention : environ " ++ fmt0 pct ++ "% des valeurs sont absentes."

/-- `_describe_unique_values(value, column)`. -/
def describeUniqueValues (v : Option Int) (column : String) : String :=
  match v with
  | none => ""
  | some count =>
      if count ≤ 1 then "La colonne " ++ column ++ " est quasi constante."
      else if count ≤ 5 then
        "La colonne " ++ column ++ " ne compte que " ++ toString count ++
        " modalités distinctes."
      else if count ≤ 20 then
        "La diversité reste contenue avec " ++ toString count ++ " valeurs distinctes."
      else "On observe une forte variété avec " ++ toString count ++ " valeurs distinctes."

/-- `_format_notable_values(value)`. -/
def formatNotableValues (v : Option (List String)) : String :=
  match v with
  | none => ""
  | some items =>
      let preview := String.intercalate ", " (items.take 5)
      if items.length > 5 then preview ++ ", ..." else preview

/-- `_insight_guidance_for_dtype(dtype_key)`. -/
def insightGuidance (dtypeKey : String) : String :=
  let k := ModuleJ.pyLower dtypeKey
  if ModuleB.strStartsWith k "numeric" || k = "numerique" then
    "Surveillez la dispersion et les valeurs extrêmes pour repérer rapidement les comportements atypiques."
  else if k = "categorical" || k = "categorie" then
    "Comparez le poids des catégories dominantes afin d'identifier les segments prioritaires."
  else if k = "date" then
    "Une lecture chronologique mettra en évidence la saisonnalité et les ruptures d'activité."
  else if k = "boolean" then
    "Mesurez l'équilibre entre les deux modalités pour prévoir la charge opérationnelle."
  else
    "Inspectez les termes les plus fréquents pour comprendre les thèmes récurrents."


/-- The metadata dict handed to `_local_column_text`. -/
structure LocalMeta where
  profile : ColProfile
  graph_types : List String
  issues : List String
deriving Repr, DecidableEq

/-- `_local_column_text(column, metadata)`. -/
def localColumnText (column : String) (metadata : LocalMeta) : ColText :=
  let profile := metadata.profile
  let dtypeKey := ModuleJ.pyLower
    (orDefault (pyOrStr profile.column_type profile.dtype) "colonne")
  let dtypeLabel := friendlyDtype dtypeKey
  let graphSentence :=
    if metadata.graph_types.isEmpty then "les indicateurs descriptifs disponibles"
    else "les graphiques " ++ String.intercalate ", " metadata.graph_types
  let analysisParts :=
    ["La colonne " ++ column ++ " (" ++ dtypeLabel ++ ") est explorée via " ++
      graphSentence ++ "."]
  let uniqueSentence := describeUniqueValues profile.unique_values column
  let analysisParts :=
    if uniqueSentence = "" then analysisParts else analysisParts ++ [uniqueSentence]
  let missingSentence := describeMissingRatio profile.missing_percent
  let analysisParts :=
    if missingSentence = "" then analysisParts else analysisParts ++ [missingSentence]
  let insightsParts := [insightGuidance dtypeKey]
  let notable := pyOrList profile.sample profile.examples
  let formattedValues := formatNotableValues notable
  let insightsParts :=
    if formattedValues = "" then insightsParts
    else insightsParts ++ ["Valeurs mises en avant : " ++ formattedValues ++ "."]
  let anomalies :=
    if metadata.issues.isEmpty then
      "Aucun signal faible particulier n'a été détecté pour cette colonne."
    else
      "Points de vigilance : " ++
      String.intercalate ", " (metadata.issues.map friendlyIssueName) ++ "."
  { analysis := String.intercalate " " analysisParts,
    insights := String.intercalate " " insightsParts,
    anomalies := anomalies }

/-- Insertion into a sorted list of strings (for Python `sorted`). -/
def insertSorted (x : String) : List String → List String
  | [] => [x]
  | y :: ys => if x ≤ y then x :: y :: ys else y :: insertSorted x ys

/-- Python `sorted` over a deduplicated set of strings. -/
def sortStrings (l : List String) : List String := l.foldr insertSorted []

/-- `sorted({plot.get("graph_type", "graphique") for plot in plots if plot.get("graph_type")})` —
the truthy graph types of a plot group, deduplicated and sorted. -/
def sortedGraphTypes (plots : List PlotH) : List String :=
  sortStrings ((plots.filterMap (fun p =>
    match p.graph_type with
    | some g => if g = "" then none else some g
    | none => none)).dedup)

/-- `_profile_for(column)` inside `_local_default_structure`: the diagnostic
profile (or `{}`), with `column_type` filled from `column_types` when absent. -/
def profileFor (analysis : Analysis) (column : String) : ColProfile :=
  let diagCols := analysis.diagnostic_columns.getD []
  let profile :=
    match List.find? (fun pr => pr.1 = column) diagCols with
    | some pr => pr.2
    | none => emptyProfile
  match List.find? (fun ct => ct.1 = column) analysis.column_types with
  | some ct =>
      if profile.column_type.isNone then { profile with column_type := some ct.2 }
      else profile
  | none => profile

/-- `_local_default_structure(analysis_results, plots)`. -/
def localDefaultStructure (analysis : Analysis) (plots : List PlotH) : TextsResult :=
  let grouped := groupPlots plots
  let perColumn :=
    if ¬ grouped.isEmpty then
      grouped.map (fun pr =>
        (pr.1, localColumnText pr.1
          { profile := profileFor analysis pr.1,
            graph_types := sortedGraphTypes pr.2,
            issues := columnIssues pr.1 analysis }))
    else
      analysis.column_types.map (fun ct =>
        let profile := profileFor analysis ct.1
        let profile := if profile.truthy then profile
          else { emptyProfile with column_type := some ct.2 }
        (ct.1, localColumnText ct.1
          { profile := profile,
            graph_types := [],
            issues := columnIssues ct.1 analysis }))
  let perColumn :=
    if perColumn.isEmpty then
      [("dataset",
        { analysis := "Le dataset ne contient pas de colonnes exploitables, mais la structure reste disponible.",
          insights := "Chargez un fichier avec davantage de colonnes numériques ou catégorielles pour enrichir le rapport.",
          anomalies := "Aucune anomalie détectée sur l'échantillon disponible." })]
    else perColumn
  { global_intro := "Rapport généré sans IA avancée. Les éléments principaux restent disponibles.",
    global_summary := "Conclusion : exploitez les graphiques pour approfondir les tendances identifiées.",
    per_column := perColumn,
    correlations := [] }

/- --------------- module_d_texts.generate_texts (use_ai=False) --------------- -/

/-- One legacy `{"column", "graph_type", "title", "text"}` entry. -/
structure LegacyEntry where
  column : Option String
  graph_type : Option String
  title : String
  text : String
deriving Repr, DecidableEq

/-- The legacy `{"analyses", "conclusion"}` structure. -/
structure LegacyResult where
  analyses : List LegacyEntry
  conclusion : String
deriving Repr, DecidableEq

/-- `str(column_name)` for the f-strings of module D (`None` prints as
`"None"`). -/
def columnNameStr (p : PlotH) : String :=
  match p.column with
  | some c => c
  | none => "None"

/-- `_generate_fallback_text(column_name, column_summary, graph_type)` on a
dict summary (`none` = `{}`). -/
def generateFallbackTextD (columnName : String) (summary : Option ColProfile)
    (graphType : Option String) : String :=
  let dtype := (summary.bind (·.dtype)).getD "données"
  let missingPct := (summary.bind (·.missing_percent)).getD 0
  let uniqueValues := summary.bind (·.unique_values)
  let friendlyType :=
    if dtype = "numerique" then "numérique"
    else if dtype = "categorie" then "catégorielle"
    else if dtype = "date" then "temporelle"
    else if dtype = "texte" then "textuelle"
    else dtype
  let sentences := ["La colonne " ++ columnName ++ " contient des données " ++
    friendlyType ++ "."]
  let sentences :=
    match uniqueValues with
    | none => sentences
    | some u =>
        if u ≤ 5 then sentences ++
          ["On observe une faible diversité avec seulement " ++ toString u ++
           " valeurs distinctes."]
        else if u ≤ 20 then sentences ++
          ["La diversité est modérée avec " ++ toString u ++ " modalités différentes."]
        else sentences ++
          ["Une forte variété est constatée avec " ++ toString u ++ " valeurs uniques."]
  let sentences :=
    if missingPct > 0 then
      if missingPct < 10 then sentences ++
        ["Les données sont quasi-complètes (" ++ fmt1 missingPct ++
         "% de valeurs manquantes)."]
      else if missingPct < 30 then sentences ++
        ["Attention au taux modéré de valeurs manquantes (" ++ fmt1 missingPct ++ "%)."]
      else sentences ++
        ["Important : " ++ fmt1 missingPct ++
         "% des valeurs sont absentes, ce qui peut impacter l'analyse."]
    else sentences ++ ["Aucune valeur manquante détectée, données complètes."]
  let sentences :=
    match graphType with
    | some "histogram" => sentences ++
        ["La distribution permet d'identifier les valeurs les plus fréquentes et les éventuels pics."]
    | some "barchart" => sentences ++
        ["Le graphique révèle les catégories dominantes et leur répartition."]
    | some "linechart" => sentences ++
        ["L'évolution temporelle met en évidence les tendances et variations."]
    | some "boxplot" => sentences ++
        ["Les statistiques montrent la dispersion et les valeurs extrêmes."]
    | some "density" => sentences ++
        ["La courbe de densité illustre la concentration des valeurs."]
    | _ => sentences
  String.intercalate " " sentences

/-- `module_d_texts.generate_texts(analysis, plots, use_ai=False)`.
`column_info` is the diagnostic per-column dict when truthy, else the
`column_types` dict of plain strings — in the latter case any plot whose
column is a `column_types` key hands a *string* to
`_generate_fallback_text`, which raises `AttributeError` on `.get`
(modelled as `Except.error`). -/
def moduleDGenerateTextsFallback (analysis : Analysis) (plots : List PlotH) :
    Except Unit LegacyResult :=
  let diagTruthy : Bool :=
    match analysis.diagnostic_columns with
    | some l => !l.isEmpty
    | none => false
  if diagTruthy then
    let diagCols := analysis.diagnostic_columns.getD []
    Except.ok
      { analyses := plots.map (fun p =>
          let summary :=
            match p.column with
            | some c => (List.find? (fun pr => pr.1 = c) diagCols).map Prod.snd
            | none => none
          { column := p.column, graph_type := p.graph_type,
            title := "Analyse de " ++ columnNameStr p,
            text := generateFallbackTextD (columnNameStr p) summary p.graph_type }),
        conclusion := DEFAULT_GENERIC_TEXT_D }
  else
    if plots.any (fun p =>
        match p.column with
        | some c => (List.find? (fun ct => ct.1 = c) analysis.column_types).isSome
        | none => false) then
      Except.error ()
    else
      Except.ok
        { analyses := plots.map (fun p =>
            { column := p.column, graph_type := p.graph_type,
              title := "Analyse de " ++ columnNameStr p,
              text := generateFallbackTextD (columnNameStr p) none p.graph_type }),
          conclusion := DEFAULT_GENERIC_TEXT_D }

/-- Dict assignment `per_column[column] = v`: overwrite in place or append. -/
def setAssoc : List (String × ColText) → String → ColText → List (String × ColText)
  | [], k, v => [(k, v)]
  | (k', v') :: rest, k, v =>
      if k' = k then (k', v) :: rest
      else (k', v') :: setAssoc rest k v

/-- `_call_module_d_fallback(analysis_results, visualization_plan, style)`.
`generate_default_texts` does not exist in module_d_texts, so its import
failed and the legacy `generate_texts(use_ai=False)` branch runs; if that
raises, `_local_default_structure` is the terminal fallback.  The style
argument is accepted but unused by the legacy path. -/
def callModuleDFallback (analysis : Analysis) (plots : List PlotH)
    (_style : String) : TextsResult :=
  match moduleDGenerateTextsFallback analysis plots with
  | Except.ok legacy =>
      let perColumn := legacy.analyses.foldl (fun acc entry =>
        let column := orDefault entry.column "colonne"
        let text := if entry.text = "" then DEFAULT_GENERIC_TEXT_H else entry.text
        setAssoc acc column { analysis := text, insights := text, anomalies := "" }) []
      let conclusion :=
        if legacy.conclusion = "" then DEFAULT_GENERIC_TEXT_H else legacy.conclusion
      { global_intro := conclusion, global_summary := conclusion,
        per_column := perColumn, correlations := [] }
  | Except.error _ => localDefaultStructure analysis plots

/- ----------------------------- the AI strategy ----------------------------- -/

/-- A strict-JSON object returned by `_call_openai_json` (string values; the
falsy empty string models the `or DEFAULT` checks). -/
abbrev JsonObj := List (String × String)

/-- `response.get(key)`. -/
def jget (o : JsonObj) (k : String) : Option String :=
  (List.find? (fun pr => pr.1 = k) o).map Prod.snd

/-- One logical AI-composition unit: per-column text, correlation text (by
position in the correlations list), global intro, global summary.  Each unit
performs exactly one `_call_openai_json` call with a prompt deterministic in
its inputs. -/
inductive AICall where
  | colCall (column : String)
  | corrCall (idx : Nat)
  | introCall
  | summaryCall
deriving Repr, DecidableEq

/-- The OpenAI transport plus JSON parsing, as one oracle per unit:
`Except.error msg` is an `AIGenerationError` raised by `_call_openai_json`
(transport failure, or a response that is not a JSON object). -/
def AIOracle := AICall → Except String JsonObj

/-- `generate_column_text(...)`: one AI call, then the fixed-key validation;
a missing key raises, an empty value falls back to the generic text
(`""` for anomalies). -/
def generateColumnText (oracle : AIOracle) (column : String) :
    Except String ColText := do
  let response ← oracle (AICall.colCall column)
  if (jget response "analysis").isSome ∧ (jget response "insights").isSome ∧
      (jget response "anomalies").isSome then
    pure { analysis := orDefault (jget response "analysis") DEFAULT_GENERIC_TEXT_H,
           insights := orDefault (jget response "insights") DEFAULT_GENERIC_TEXT_H,
           anomalies := orDefault (jget response "anomalies") "" }
  else throw "Format JSON inattendu pour l'analyse de colonne."

/-- `generate_global_intro` / `generate_summary` / `generate_correlation_text`:
one AI call validated to carry a `"text"` key, returned as-is. -/
def generateTextUnit (oracle : AIOracle) (call : AICall) (errMsg : String) :
    Except String String := do
  let response ← oracle call
  match jget response "text" with
  | some t => pure t
  | none => throw errMsg

/-- The `for column, column_plots in grouped_plots.items()` loop: sequential,
aborted by the first `AIGenerationError`. -/
def runColumns (oracle : AIOracle) :
    List (String × List PlotH) → Except String (List (String × ColText))
  | [] => Except.ok []
  | pr :: rest => do
      let t ← generateColumnText oracle pr.1
      let others ← runColumns oracle rest
      pure ((pr.1, t) :: others)

/-- The correlation-text loop, indexed by position. -/
def runCorrs (oracle : AIOracle) (idx : Nat) :
    List CorrRel → Except String (List CorrText)
  | [] => Except.ok []
  | c :: rest => do
      let t ← generateTextUnit oracle (AICall.corrCall idx)
        "Réponse JSON invalide pour la corrélation."
      let others ← runCorrs oracle (idx + 1) rest
      pure ({ cols := c.columns, text := t } :: others)

/-- The `try:` block of `generate_texts_ai` — per-column texts, correlation
texts, global intro, global summary, in source order.  (The prompt-side
context building, `_build_dataset_context` and `_column_profile`, only feeds
the prompts the oracle abstracts.) -/
def runAI (oracle : AIOracle) (analysis : Analysis) (plots : List PlotH) :
    Except String TextsResult := do
  let perColumn ← runColumns oracle (groupPlots plots)
  let correlationsTexts ← runCorrs oracle 0 analysis.correlations
  let globalIntro ← generateTextUnit oracle AICall.introCall
    "Réponse JSON invalide pour l'introduction."
  let globalSummary ← generateTextUnit oracle AICall.summaryCall
    "Réponse JSON invalide pour la synthèse."
  pure { global_intro := globalIntro, global_summary := globalSummary,
         per_column := perColumn, correlations := correlationsTexts }

/-- `generate_texts_ai(analysis_results, visualization_plan, style)`.
`clientPresent` is `_ensure_client(os.getenv("OPENAI_API_KEY")) is not None`
(openai installed, key configured); without a client the fallback runs
directly, otherwise any `AIGenerationError` inside the `try:` discards the
in-progress AI results and the whole-run fallback output is returned. -/
def generateTextsAi (oracle : AIOracle) (clientPresent : Bool)
    (analysis : Analysis) (plots : List PlotH) (style : String) : TextsResult :=
  let sk := styleKeyOf style
  if ¬ clientPresent then callModuleDFallback analysis plots sk
  else
    match runAI oracle analysis plots with
    | Except.ok r => r
    | Except.error _ => callModuleDFallback analysis plots sk

end ModuleH

end CsvToPpt

namespace CsvToPpt.ModuleH

/-- If the per-column loop completed, every grouped column's unit succeeded. -/
lemma runColumns_ok (oracle : AIOracle) :
    ∀ (l : List (String × List PlotH)) (ys : List (String × ColText)),
      runColumns oracle l = Except.ok ys →
      ∀ pr ∈ l, ∃ t, generateColumnText oracle pr.1 = Except.ok t := by
  intro l
  induction l with
  | nil =>
    intro ys _ pr hpr
    exact absurd hpr (List.not_mem_nil pr)
  | cons pr rest ih =>
    intro ys hok qr hqr
    rw [runColumns] at hok
    cases h1 : generateColumnText oracle pr.1 with
    | error e =>
        rw [h1] at hok
        exact Except.noConfusion hok
    | ok t =>
        rw [h1] at hok
        cases h2 : runColumns oracle rest with
        | error e =>
            rw [h2] at hok
            exact Except.noConfusion hok
        | ok zs =>
            rcases List.mem_cons.mp hqr with rfl | hqr
            · exact ⟨t, h1⟩
            · exact ih zs h2 qr hqr

/-- If the correlation loop completed from start index `k`, every positioned
correlation unit succeeded. -/
lemma runCorrs_ok (oracle : AIOracle) :
    ∀ (l : List CorrRel) (k : Nat) (ys : List CorrText),
      runCorrs oracle k l = Except.ok ys →
      ∀ i < l.length, ∃ t,
        generateTextUnit oracle (AICall.corrCall (k + i))
          "Réponse JSON invalide pour la corrélation." = Except.ok t := by
  intro l
  induction l with
  | nil =>
    intro k ys _ i hi
    exact absurd hi (by simp)
  | cons c rest ih =>
    intro k ys hok i hi
    rw [runCorrs] at hok
    cases h1 : generateTextUnit oracle (AICall.corrCall k)
        "Réponse JSON invalide pour la corrélation." with
    | error e =>
        rw [h1] at hok
        exact Except.noConfusion hok
    | ok t =>
        rw [h1] at hok
        cases h2 : runCorrs oracle (k + 1) rest with
        | error e =>
            rw [h2] at hok
            exact Except.noConfusion hok
        | ok zs =>
            cases i with
            | zero => exact ⟨t, by simpa using h1⟩
            | succ j =>
                have hj : j < rest.length := by
                  simpa [Nat.succ_lt_succ_iff] using hi
                have := ih (k + 1) zs h2 j hj
                have harith : k + 1 + j = k + (j + 1) := by omega
                rw [harith] at this
                exact this

/-- C1: with an OpenAI client present, if any single AI unit (a per-column
text, a correlation text, the global intro or the global summary) fails with
an `AIGenerationError`, `generate_texts_ai` returns exactly the rule-based
fallback's output for the whole run — the fallback takes no AI data, so no
AI-produced text survives — and the result coincides with the run that never
had a client. -/
theorem ai_unit_failure_discards_all_ai_text
    (oracle : AIOracle) (analysis : Analysis) (plots : List PlotH) (style : String)
    (hfail :
      (∃ pr ∈ groupPlots plots, ∃ e,
        generateColumnText oracle pr.1 = Except.error e) ∨
      (∃ i, i < analysis.correlations.length ∧ ∃ e,
        generateTextUnit oracle (AICall.corrCall i)
          "Réponse JSON invalide pour la corrélation." = Except.error e) ∨
      (∃ e, generateTextUnit oracle AICall.introCall
        "Réponse JSON invalide pour l'introduction." = Except.error e) ∨
      (∃ e, generateTextUnit oracle AICall.summaryCall
        "Réponse JSON invalide pour la synthèse." = Except.error e)) :
    generateTextsAi oracle true analysis plots style =
      callModuleDFallback analysis plots (styleKeyOf style) ∧
    (∀ oracle' : AIOracle,
      generateTextsAi oracle true analysis plots style =
      generateTextsAi oracle' false analysis plots style) := by
  have hrun : ∃ e, runAI oracle analysis plots = Except.error e := by
    cases hR : runAI oracle analysis plots with
    | error e => exact ⟨e, rfl⟩
    | ok r =>
        exfalso
        rw [runAI] at hR
        cases h1 : runColumns oracle (groupPlots plots) with
        | error e =>
            rw [h1] at hR
            exact Except.noConfusion hR
        | ok cols =>
            rw [h1] at hR
            cases h2 : runCorrs oracle 0 analysis.correlations with
            | error e =>
                rw [h2] at hR
                exact Except.noConfusion hR
            | ok corrs =>
                rw [h2] at hR
                cases h3 : generateTextUnit oracle AICall.introCall
                    "Réponse JSON invalide pour l'introduction." with
                | error e =>
                    rw [h3] at hR
                    exact Except.noConfusion hR
                | ok intro =>
                    rw [h3] at hR
                    cases h4 : generateTextUnit oracle AICall.summaryCall
                        "Réponse JSON invalide pour la synthèse." with
                    | error e =>
                        rw [h4] at hR
                        exact Except.noConfusion hR
                    | ok summary =>
                        rcases hfail with ⟨pr, hpr, e, he⟩ | ⟨i, hi, e, he⟩ |
                          ⟨e, he⟩ | ⟨e, he⟩
                        · obtain ⟨t, ht⟩ :=
                            runColumns_ok oracle (groupPlots plots) cols h1 pr hpr
                          rw [ht] at he
                          exact Except.noConfusion he
                        · obtain ⟨t, ht⟩ :=
                            runCorrs_ok oracle analysis.correlations 0 corrs h2 i hi
                          rw [Nat.zero_add] at ht
                          rw [ht] at he
                          exact Except.noConfusion he
                        · rw [h3] at he
                          exact Except.noConfusion he
                        · rw [h4] at he
                          exact Except.noConfusion he
  obtain ⟨e, he⟩ := hrun
  constructor
  · unfold generateTextsAi
    rw [he]
    simp
  · intro oracle'
    unfold generateTextsAi
    rw [he]
    simp

/-- The C1 witness oracle: the global-intro unit raises, every other unit
would answer well-formed JSON. -/
def wit1oracle : AIOracle := fun c =>
  match c with
  | AICall.introCall => Except.error "Échec OpenAI: boom"
  | _ => Except.ok
      [("analysis", "A"), ("insights", "I"), ("anomalies", "N"), ("text", "T")]

/-- The C1 witness analysis: one numeric column, no diagnostic, no issues,
no correlations. -/
def wit1analysis : Analysis := ⟨[("a", "numeric_continuous")], none, [], []⟩

/-- The C1 witness plan: one histogram for column a. -/
def wit1plots : List PlotH := [⟨some "a", some "histogram"⟩]

/-- Witness for C1: the intro unit fails concretely and the result equals the
fallback output. -/
theorem ai_unit_failure_discards_all_ai_text_witness :
    (generateTextUnit wit1oracle AICall.introCall
      "Réponse JSON invalide pour l'introduction." =
        Except.error "Échec OpenAI: boom") ∧
    generateTextsAi wit1oracle true wit1analysis wit1plots "normal" =
      callModuleDFallback wit1analysis wit1plots (styleKeyOf "normal") := by
  refine ⟨rfl, ?_⟩
  exact (ai_unit_failure_discards_all_ai_text wit1oracle wit1analysis wit1plots
    "normal" (Or.inr (Or.inr (Or.inl ⟨"Échec OpenAI: boom", rfl⟩)))).1

end CsvToPpt.ModuleH
